import Mathlib

/-!
Verification development for the assessment evaluation engine of the
ai-jobs-screener repository (Convex backend, TypeScript).

The scoring functions and orchestration mutations from
`convex/assessments.ts`, `convex/sessions.ts`, `convex/vapiIntegration.ts`
and the vendor-data evaluation code are embedded shallowly:

* JavaScript numbers are modelled as `JSNum := Option ℚ`, with `none`
  playing the role of NaN.  The only arithmetic that can produce a
  non-rational value in this code base is the division
  `sum / responses.length` in `calculateExperienceScore`, whose numerator
  is provably 0 whenever its denominator is 0 (JS `0/0` is NaN); `jsDiv`
  therefore returns `none` exactly when the denominator is 0.
* The Convex database is a record of association lists (id ↦ document);
  mutations are functions `DB → … → Except String (DB × result)`, where
  `Except.error` models a thrown error (Convex rolls the transaction
  back, so an error carries no updated state).
* String matching follows the source: case-insensitive substring
  containment against the space-joined lowercased candidate text.
-/

section Spec2Proof

set_option maxRecDepth 100000

/- The Batteries rational operations are sealed against unfolding; concrete
evaluation of the scoring pipeline in proofs needs them to reduce. -/
attribute [local semireducible] Rat.add Rat.mul Rat.inv Rat.sub Rat.ofScientific

/- Equality of `Except` results (used to state concrete evaluations of the
fallible scorers). -/
deriving instance DecidableEq for Except

/-! ## JavaScript number model -/

/-- A JavaScript number as used by the scoring pipeline: `none` is NaN. -/
abbrev JSNum := Option ℚ

/-- Lift a rational to a JS number. -/
def jsNum (q : ℚ) : JSNum := some q

/-- JS addition; NaN propagates. -/
def jsAdd : JSNum → JSNum → JSNum
  | some x, some y => some (x + y)
  | _, _ => none

/-- JS multiplication; NaN propagates. -/
def jsMul : JSNum → JSNum → JSNum
  | some x, some y => some (x * y)
  | _, _ => none

/-- JS division.  `0/0` is NaN.  (JS `x/0` with `x ≠ 0` is ±Infinity, but in
this code base every division with a possibly-zero denominator has a
numerator that is 0 whenever the denominator is, so `none` is faithful.) -/
def jsDiv : JSNum → JSNum → JSNum
  | some x, some y => if y = 0 then none else some (x / y)
  | _, _ => none

/-- JS `Math.min` on two rationals, written with an explicit comparison so
that the kernel can evaluate it. -/
def jsMinQ (a b : ℚ) : ℚ := if a ≤ b then a else b

/-- JS `Math.max` on two rationals. -/
def jsMaxQ (a b : ℚ) : ℚ := if a ≤ b then b else a

/-- JS `Math.min`; returns NaN if either argument is NaN. -/
def jsMin : JSNum → JSNum → JSNum
  | some x, some y => some (jsMinQ x y)
  | _, _ => none

/-- JS `Math.max`; returns NaN if either argument is NaN. -/
def jsMax : JSNum → JSNum → JSNum
  | some x, some y => some (jsMaxQ x y)
  | _, _ => none

/-- JS `Math.round` on a rational: round half toward +∞. -/
def jsRoundQ (q : ℚ) : ℚ := ((⌊q + 1/2⌋ : ℤ) : ℚ)

/-- JS `Math.round`; NaN propagates. -/
def jsRound : JSNum → JSNum
  | some q => some (jsRoundQ q)
  | none => none

/-- JS `>=`; any comparison with NaN is false. -/
def jsGe : JSNum → JSNum → Bool
  | some x, some y => decide (y ≤ x)
  | _, _ => false

/-- JS `<`; any comparison with NaN is false. -/
def jsLt : JSNum → JSNum → Bool
  | some x, some y => decide (x < y)
  | _, _ => false

/-- JS `a || b` for an optional string: `undefined` and `""` are falsy. -/
def jsOrStr (a : Option String) (b : Option String) : Option String :=
  match a with
  | some s => if s = "" then b else some s
  | none => b

/-- JS `a || d` for an optional number: `undefined` and `0` are falsy. -/
def jsOrNum (a : Option ℚ) (d : ℚ) : ℚ :=
  match a with
  | some q => if q = 0 then d else q
  | none => d

/-- JS `a || d` for an optional timestamp: `undefined` and `0` are falsy. -/
def jsOrTime (a : Option Int) (d : Int) : Int :=
  match a with
  | some t => if t = 0 then d else t
  | none => d

/-! ## Strings: lowercasing, joining, substring containment -/

/-- Lowercase a string (JS `toLowerCase` on the ASCII keywords used here). -/
def lowerStr (s : String) : String := ⟨s.data.map Char.toLower⟩

/-- List-of-characters prefix test. -/
def charsPrefixOf : List Char → List Char → Bool
  | [], _ => true
  | _ :: _, [] => false
  | a :: as, b :: bs => a == b && charsPrefixOf as bs

/-- List-of-characters substring test. -/
def charsSubstr (needle : List Char) : List Char → Bool
  | [] => charsPrefixOf needle []
  | b :: bs => charsPrefixOf needle (b :: bs) || charsSubstr needle bs

/-- JS `hay.includes(needle)`. -/
def jsIncludes (hay needle : String) : Bool := charsSubstr needle.data hay.data

/-- JS `s.split(" ")` on the character list: split at every space, keeping
empty pieces (so the empty string yields one empty piece, as in JS). -/
def splitSpaceChars : List Char → List Char → List (List Char)
  | [], acc => [acc.reverse]
  | c :: cs, acc =>
    if c == ' ' then acc.reverse :: splitSpaceChars cs []
    else splitSpaceChars cs (c :: acc)

/-- JS `s.split(" ")`. -/
def jsSplitSpace (s : String) : List String :=
  (splitSpaceChars s.data []).map (fun cs => ⟨cs⟩)

/-- JS `parts.join(" ")` on character lists. -/
def joinSpaceChars : List (List Char) → List Char
  | [] => []
  | [l] => l
  | l :: ls => l ++ ' ' :: joinSpaceChars ls

/-! ## Transcript entries (schema `sessions.transcripts` element) -/

/-- One transcript entry, as in the `sessions` table schema. -/
structure TranscriptEntry where
  id : String
  text : String
  role : String
  timestamp : Int
  confidence : Option ℚ
  isFinal : Bool
deriving DecidableEq, Repr

/-- The space-joined lowercased text of a list of responses
(`responses.map(r => r.text.toLowerCase()).join(" ")`). -/
def allCandidateText (responses : List TranscriptEntry) : String :=
  ⟨joinSpaceChars (responses.map (fun r => (lowerStr r.text).data))⟩

/-- Total of `r.text.split(" ").length` over the responses. -/
def totalUserWords (responses : List TranscriptEntry) : ℕ :=
  (responses.map (fun r => (jsSplitSpace r.text).length)).sum

/-- Average `totalUserWords / responses.length`, guarded exactly as in the source
(`userResponses.length > 0 ? totalUserWords / userResponses.length : 0`). -/
def avgWordsPerResponse (responses : List TranscriptEntry) : ℚ :=
  if responses.length > 0 then (totalUserWords responses : ℚ) / responses.length else 0

/-! ## Lexicon store -/

/-- Three keyword tiers for one trade category
(`calculateAdvancedKeywordScore`'s `tradeKeywords` record values). -/
structure Lexicon where
  primary : List String
  secondary : List String
  safety : List String
deriving DecidableEq, Repr

/-- The `general` lexicon of `calculateAdvancedKeywordScore`. -/
def generalLexicon : Lexicon :=
  { primary := ["work", "job", "experience", "skill", "team", "responsibility"]
    secondary := ["learning", "training", "communication", "problem", "solution"]
    safety := ["safety", "awareness", "procedures", "protocols", "training"] }

/-- Own entries of the `tradeKeywords` record of
`calculateAdvancedKeywordScore`: `none` for a key that is not an own
property of the table.  The full JS property access, prototype chain
included, is `advancedTradeKeywordsAccess` below; on the seven schema
trade categories (the only values `candidate.tradeCategory` can take) the
two coincide. -/
def advancedTradeKeywords (c : String) : Option Lexicon :=
  if c = "construction" then some
    { primary := ["build", "construction", "concrete", "foundation", "frame", "blueprint", "site"]
      secondary := ["tools", "materials", "project", "crew", "supervisor", "schedule"]
      safety := ["safety", "hard hat", "ppe", "osha", "hazard", "protection"] }
  else if c = "electrical" then some
    { primary := ["electrical", "wire", "circuit", "voltage", "power", "breaker", "conduit"]
      secondary := ["installation", "troubleshoot", "panel", "outlet", "switch", "meter"]
      safety := ["lockout", "tagout", "grounding", "arc flash", "safety", "shock"] }
  else if c = "plumbing" then some
    { primary := ["plumbing", "pipe", "water", "drain", "fixture", "pressure", "flow"]
      secondary := ["installation", "repair", "leak", "valve", "fitting", "joint"]
      safety := ["safety", "chemicals", "confined space", "ventilation", "ppe"] }
  else if c = "welding" then some
    { primary := ["weld", "welding", "metal", "steel", "torch", "arc", "mig", "tig"]
      secondary := ["joint", "bead", "penetration", "strength", "quality", "inspection"]
      safety := ["ventilation", "fume", "protection", "shield", "safety", "fire"] }
  else if c = "manufacturing" then some
    { primary := ["manufacturing", "machine", "assembly", "production", "quality", "process"]
      secondary := ["equipment", "maintenance", "efficiency", "standards", "procedures"]
      safety := ["safety", "lockout", "guarding", "ppe", "protocols", "procedures"] }
  else if c = "maintenance" then some
    { primary := ["maintenance", "repair", "equipment", "troubleshoot", "service", "inspect"]
      secondary := ["preventive", "breakdown", "parts", "tools", "documentation"]
      safety := ["safety", "procedures", "lockout", "confined space", "hazard"] }
  else if c = "general" then some generalLexicon
  else none

/-- Lookup `tradeKeywords[tradeCategory] || tradeKeywords.general`. -/
def lexiconFor (c : String) : Lexicon := (advancedTradeKeywords c).getD generalLexicon

/-- Number of keywords of a tier contained in the candidate text
(`keywords.tier.filter(k => allText.includes(k)).length`). -/
def tierMatchCount (responses : List TranscriptEntry) (tier : List String) : ℕ :=
  (tier.filter (fun k => jsIncludes (allCandidateText responses) k)).length

/-- Per-hit weight for primary-tier keyword matches. -/
def primaryWeight : ℚ := 10

/-- Per-hit weight for secondary-tier keyword matches. -/
def secondaryWeight : ℚ := 5

/-- Per-hit weight for safety-tier keyword matches. -/
def safetyWeight : ℚ := 8

/-- Embeds `calculateAdvancedKeywordScore` (`assessments.ts`, also duplicated next
to `evaluateFromVapiData`): weighted count of lexicon hits, clamped to 100. -/
def calculateAdvancedKeywordScore (responses : List TranscriptEntry) (tradeCategory : String) : ℚ :=
  let keywords := lexiconFor tradeCategory
  let primaryMatches := tierMatchCount responses keywords.primary
  let secondaryMatches := tierMatchCount responses keywords.secondary
  let safetyMatches := tierMatchCount responses keywords.safety
  jsMinQ 100 ((primaryMatches : ℚ) * primaryWeight + (secondaryMatches : ℚ) * secondaryWeight
    + (safetyMatches : ℚ) * safetyWeight)

/-- Own entries of the `tradeKeywords` table of the MVP scorer
`calculateTradeKeywordScore`; the full JS property access, prototype chain
included, is `basicTradeKeywordsAccess` below. -/
def basicTradeKeywords (c : String) : Option (List String) :=
  if c = "construction" then
    some ["build", "construction", "concrete", "foundation", "frame", "blueprint", "safety", "hard hat"]
  else if c = "electrical" then
    some ["wire", "electrical", "circuit", "voltage", "power", "outlet", "breaker", "safety", "shock"]
  else if c = "plumbing" then
    some ["pipe", "plumbing", "water", "drain", "fixture", "pressure", "leak", "wrench", "safety"]
  else if c = "welding" then
    some ["weld", "welding", "metal", "torch", "steel", "arc", "safety", "protective", "gas"]
  else if c = "manufacturing" then
    some ["machine", "assembly", "production", "quality", "process", "equipment", "safety", "procedure"]
  else if c = "maintenance" then
    some ["repair", "maintenance", "fix", "inspect", "service", "equipment", "safety", "troubleshoot"]
  else if c = "general" then
    some ["work", "job", "task", "team", "safety", "experience", "skill", "professional"]
  else none

/-- The `general` list of `basicTradeKeywords`. -/
def basicGeneralKeywords : List String :=
  ["work", "job", "task", "team", "safety", "experience", "skill", "professional"]

/-- Embeds `calculateTradeKeywordScore` (MVP): fraction of the trade keyword list
found in the candidate text, scaled to 100 and clamped.  The keyword list is
a non-empty literal for every category, so the division is by a non-zero
constant and plain rational division is faithful. -/
def calculateTradeKeywordScore (responses : List TranscriptEntry) (tradeCategory : String) : ℚ :=
  let keywords := (basicTradeKeywords tradeCategory).getD basicGeneralKeywords
  let matchCount := (keywords.filter (fun k => jsIncludes (allCandidateText responses) k)).length
  jsMinQ 100 ((matchCount : ℚ) / (keywords.length : ℚ) * 100)

/-- The `experienceIndicators` list of `calculateExperienceScore`. -/
def experienceIndicators : List String :=
  ["years", "experience", "worked", "project", "company", "job", "position",
   "responsible", "managed", "led", "trained", "supervised", "completed"]

/-- Embeds `calculateExperienceScore`: experience-indicator hits plus average
response length in characters, clamped to 100.  The average divides by
`responses.length` without a guard, so an empty response list yields NaN
(JS `0/0`), modelled as `none`. -/
def calculateExperienceScore (responses : List TranscriptEntry) : JSNum :=
  let allText := allCandidateText responses
  let matchCount := (experienceIndicators.filter (fun k => jsIncludes allText k)).length
  let avgResponseLength :=
    jsDiv (jsNum ((responses.map (fun r => (r.text.length : ℚ))).sum)) (jsNum (responses.length : ℚ))
  jsMin (jsNum 100) (jsAdd (jsNum ((matchCount : ℚ) * 8)) (jsDiv avgResponseLength (jsNum 5)))

/-- The `keywords` list of `findTradeKeywords`. -/
def insightKeywords : List String :=
  ["safety", "experience", "tools", "training", "quality", "procedures",
   "team", "communication", "problem", "solution", "responsibility"]

/-- Embeds `findTradeKeywords`: keywords found in the candidate text, for insights. -/
def findTradeKeywords (responses : List TranscriptEntry) (_tradeCategory : String) : List String :=
  insightKeywords.filter (fun k => jsIncludes (allCandidateText responses) k)

/-! ## JS property access on the keyword tables (prototype chain) -/

/-- Member names inherited from `Object.prototype`: a property read on a
plain object literal at one of these keys yields a truthy inherited value,
not `undefined`. -/
def objectPrototypeKeys : List String :=
  ["constructor", "hasOwnProperty", "isPrototypeOf", "propertyIsEnumerable",
   "toLocaleString", "toString", "valueOf", "__defineGetter__", "__defineSetter__",
   "__lookupGetter__", "__lookupSetter__", "__proto__"]

/-- Result of a JS property access `table[key]` on a plain object literal:
an own entry, a truthy value inherited from `Object.prototype`, or
`undefined`. -/
inductive PropLookup (α : Type) where
  | own (a : α)
  | inherited
  | undefined
deriving DecidableEq, Repr

/-- The JS property access `tradeKeywords[tradeCategory]` of
`calculateAdvancedKeywordScore`, prototype chain included. -/
def advancedTradeKeywordsAccess (c : String) : PropLookup Lexicon :=
  match advancedTradeKeywords c with
  | some l => .own l
  | none => if c ∈ objectPrototypeKeys then .inherited else .undefined

/-- The JS property access `tradeKeywords[tradeCategory]` of
`calculateTradeKeywordScore`, prototype chain included. -/
def basicTradeKeywordsAccess (c : String) : PropLookup (List String) :=
  match basicTradeKeywords c with
  | some l => .own l
  | none => if c ∈ objectPrototypeKeys then .inherited else .undefined

/-- Embeds `calculateAdvancedKeywordScore` on an arbitrary category string:
`tradeKeywords[tradeCategory] || tradeKeywords.general` falls back only
when the access yields `undefined`.  A truthy inherited prototype member
skips the fallback; `keywords.primary` is then `undefined` and the
`.filter` call on it throws a TypeError.  On an own entry, or on the
`general` fallback, the score is that of `calculateAdvancedKeywordScore`,
whose lookup agrees there. -/
def calculateAdvancedKeywordScoreJs (responses : List TranscriptEntry)
    (tradeCategory : String) : Except String ℚ :=
  match advancedTradeKeywordsAccess tradeCategory with
  | .inherited => .error "TypeError: Cannot read properties of undefined (reading filter)"
  | _ => .ok (calculateAdvancedKeywordScore responses tradeCategory)

/-- Embeds `calculateTradeKeywordScore` on an arbitrary category string: a
truthy inherited prototype member skips the `|| general` fallback and the
`keywords.filter(...)` call throws a TypeError. -/
def calculateTradeKeywordScoreJs (responses : List TranscriptEntry)
    (tradeCategory : String) : Except String ℚ :=
  match basicTradeKeywordsAccess tradeCategory with
  | .inherited => .error "TypeError: keywords.filter is not a function"
  | _ => .ok (calculateTradeKeywordScore responses tradeCategory)

/-! ## Transcript-based evaluation -/

/-- Result of `evaluateInterviewTranscripts` / `evaluateFromVapiData`. -/
structure Evaluation where
  overallScore : JSNum
  passed : Bool
  communicationScore : ℚ
  technicalScore : ℚ
  experienceScore : JSNum
  engagementScore : ℚ
  strengths : List String
  weaknesses : List String
  keywordMatches : List String
  responseQuality : String
deriving DecidableEq, Repr

/-- Embeds `evaluateInterviewTranscripts` (`assessments.ts`): the transcript-based
scorer.  The blend is
`round(comm*0.25 + tech*0.35 + exp*0.25 + eng*0.15)`; NaN from the
experience score propagates through the JS arithmetic. -/
def evaluateInterviewTranscripts (userResponses _assistantQuestions : List TranscriptEntry)
    (tradeCategory _position : String) : Evaluation :=
  let avgWords := avgWordsPerResponse userResponses
  let communicationScore : ℚ := jsMinQ 100 (avgWords * 3 + (userResponses.length : ℚ) * 5)
  let technicalScore := calculateAdvancedKeywordScore userResponses tradeCategory
  let experienceScore := calculateExperienceScore userResponses
  let engagementScore : ℚ := jsMinQ 100 ((userResponses.length : ℚ) * 8)
  let overallScore := jsRound (jsAdd (jsAdd (jsAdd
    (jsNum (communicationScore * 0.25)) (jsNum (technicalScore * 0.35)))
    (jsMul experienceScore (jsNum 0.25))) (jsNum (engagementScore * 0.15)))
  let passed := jsGe overallScore (jsNum 65)
  let keywordMatches := findTradeKeywords userResponses tradeCategory
  let strengths0 :=
    (if communicationScore ≥ 70 then ["Clear communication skills"] else [])
    ++ (if technicalScore ≥ 70 then ["Good technical knowledge"] else [])
    ++ (if jsGe experienceScore (jsNum 70) then ["Relevant experience"] else [])
    ++ (if engagementScore ≥ 70 then ["Active participation"] else [])
  let weaknesses :=
    (if communicationScore < 50 then ["Communication could be improved"] else [])
    ++ (if technicalScore < 50 then ["Limited technical knowledge demonstrated"] else [])
    ++ (if jsLt experienceScore (jsNum 50) then ["Needs more relevant experience"] else [])
    ++ (if engagementScore < 50 then ["Limited engagement in interview"] else [])
  let strengths := if strengths0.length = 0 then ["Completed the interview"] else strengths0
  { overallScore := overallScore
    passed := passed
    communicationScore := communicationScore
    technicalScore := technicalScore
    experienceScore := experienceScore
    engagementScore := engagementScore
    strengths := strengths
    weaknesses := weaknesses
    keywordMatches := keywordMatches
    responseQuality :=
      if jsGe overallScore (jsNum 80) then "Excellent"
      else if jsGe overallScore (jsNum 65) then "Good" else "Needs Improvement" }

/-- The internal (pre-signal) score of `evaluateFromVapiData`:
`Math.round(comm*0.25 + tech*0.35 + exp*0.25 + eng*0.15)` with that
function's sub-score formulas. -/
def vapiBaseScore (userResponses : List TranscriptEntry) (tradeCategory : String) : JSNum :=
  let avgWords := avgWordsPerResponse userResponses
  let communicationScore : ℚ := jsMinQ 100 (avgWords * 4 + (userResponses.length : ℚ) * 6)
  let technicalScore := calculateAdvancedKeywordScore userResponses tradeCategory
  let experienceScore := calculateExperienceScore userResponses
  let engagementScore : ℚ := jsMinQ 100 ((userResponses.length : ℚ) * 10)
  jsRound (jsAdd (jsAdd (jsAdd
    (jsNum (communicationScore * 0.25)) (jsNum (technicalScore * 0.35)))
    (jsMul experienceScore (jsNum 0.25))) (jsNum (engagementScore * 0.15)))

/-- The external-signal adjustment of `evaluateFromVapiData`:
positive signal lifts to at least 70, negative caps at 60, absent signal
leaves the score alone. -/
def vapiAdjustScore (baseScore : JSNum) (vapiSuccess : Option Bool) : JSNum :=
  match vapiSuccess with
  | some true => jsMax baseScore (jsNum 70)
  | some false => jsMin baseScore (jsNum 60)
  | none => baseScore

/-- Embeds `evaluateFromVapiData` (vendor-data evaluation path): same pipeline as
`evaluateInterviewTranscripts` but with different communication/engagement
coefficients and the vendor success-signal clamp. -/
def evaluateFromVapiData (userResponses _assistantQuestions : List TranscriptEntry)
    (tradeCategory _position : String) (vapiSuccess : Option Bool) : Evaluation :=
  let avgWords := avgWordsPerResponse userResponses
  let communicationScore : ℚ := jsMinQ 100 (avgWords * 4 + (userResponses.length : ℚ) * 6)
  let technicalScore := calculateAdvancedKeywordScore userResponses tradeCategory
  let experienceScore := calculateExperienceScore userResponses
  let engagementScore : ℚ := jsMinQ 100 ((userResponses.length : ℚ) * 10)
  let baseScore := vapiAdjustScore (vapiBaseScore userResponses tradeCategory) vapiSuccess
  let overallScore := jsMin (jsNum 100) baseScore
  let passed := jsGe overallScore (jsNum 65)
  let keywordMatches := findTradeKeywords userResponses tradeCategory
  let strengths0 :=
    (if communicationScore ≥ 70 then ["Clear communication skills"] else [])
    ++ (if technicalScore ≥ 70 then ["Good technical knowledge"] else [])
    ++ (if jsGe experienceScore (jsNum 70) then ["Relevant experience"] else [])
    ++ (if engagementScore ≥ 70 then ["Active participation"] else [])
    ++ (if vapiSuccess = some true then ["VAPI evaluated as successful interview"] else [])
  let weaknesses :=
    (if communicationScore < 50 then ["Communication could be improved"] else [])
    ++ (if technicalScore < 50 then ["Limited technical knowledge demonstrated"] else [])
    ++ (if jsLt experienceScore (jsNum 50) then ["Needs more relevant experience"] else [])
    ++ (if engagementScore < 50 then ["Limited engagement in interview"] else [])
    ++ (if vapiSuccess = some false then ["VAPI flagged interview concerns"] else [])
  let strengths := if strengths0.length = 0 then ["Completed the interview"] else strengths0
  { overallScore := overallScore
    passed := passed
    communicationScore := communicationScore
    technicalScore := technicalScore
    experienceScore := experienceScore
    engagementScore := engagementScore
    strengths := strengths
    weaknesses := weaknesses
    keywordMatches := keywordMatches
    responseQuality :=
      if jsGe overallScore (jsNum 80) then "Excellent"
      else if jsGe overallScore (jsNum 65) then "Good" else "Needs Improvement" }

/-! ## MVP basic scoring helpers -/

/-- Minimum required duration of `calculateBasicScore` (2 minutes in ms). -/
def minRequiredDuration : ℚ := 2 * 60 * 1000

/-- The completion sub-score of `calculateBasicScore`:
`duration >= min ? 100 : duration / min * 100`. -/
def completionScoreOf (sessionDuration : ℚ) : ℚ :=
  if sessionDuration ≥ minRequiredDuration then 100
  else sessionDuration / minRequiredDuration * 100

/-- Embeds `generateBasicStrengths`. -/
def generateBasicStrengths (overall engagement keywords : ℚ) : List String :=
  let s :=
    (if overall ≥ 80 then ["Strong overall performance"] else [])
    ++ (if engagement ≥ 70 then ["Good communication and engagement"] else [])
    ++ (if keywords ≥ 60 then ["Demonstrates relevant trade knowledge"] else [])
  if s.length = 0 then ["Completed the assessment"] else s

/-- Embeds `generateBasicWeaknesses`. -/
def generateBasicWeaknesses (overall engagement keywords : ℚ) : List String :=
  (if overall < 60 then ["Below minimum performance threshold"] else [])
  ++ (if engagement < 50 then ["Limited verbal communication"] else [])
  ++ (if keywords < 40 then ["Could demonstrate more trade-specific knowledge"] else [])

/-- Embeds `generateBasicRecommendations`. -/
def generateBasicRecommendations (passed : Bool) (score : ℚ) : List String :=
  if passed then
    if score ≥ 80 then
      ["Strong candidate - proceed to next interview round", "Consider for senior-level positions"]
    else
      ["Suitable candidate - proceed with standard process", "May benefit from additional training"]
  else
    ["Does not meet minimum requirements", "Consider for entry-level positions with training"]

/-! ## Database documents (schema.ts) -/

/-- One recorded session error. The `details` record (arbitrary JSON) is
not consulted by any modelled operation and is omitted. -/
structure SessionError where
  code : String
  message : String
  timestamp : Int
deriving DecidableEq, Repr

/-- Connection-quality metrics of a session. -/
structure ConnectionQuality where
  latency : ℚ
  audioQuality : String
  connectionStability : ℚ
  disconnectCount : ℚ
deriving DecidableEq, Repr

/-- A `sessions` document.  `startTime` is a required field in the schema,
so it is always set. -/
structure Session where
  sessionId : String
  candidateId : ℕ
  status : String
  startTime : Int
  endTime : Option Int
  duration : Option Int
  vapiSessionId : Option String
  recordingUrl : Option String
  transcripts : List TranscriptEntry
  connectionQuality : Option ConnectionQuality
  errors : Option (List SessionError)
  hrMonitored : Bool
  hrNotes : Option String
deriving DecidableEq, Repr

/-- A `candidates` document, restricted to the fields read or written by
the operations modelled here. -/
structure Candidate where
  email : String
  position : String
  tradeCategory : String
  screeningStatus : String
  lastContactAt : Option Int
  flagged : Bool
deriving DecidableEq, Repr

/-- One entry of a score group's `details` array. -/
structure ScoreDetail where
  area : String
  score : JSNum
  notes : String
deriving DecidableEq, Repr

/-- The `technicalSkills` score group. -/
structure TechnicalSkills where
  score : JSNum
  toolKnowledge : JSNum
  processUnderstanding : JSNum
  problemSolving : JSNum
  details : List ScoreDetail
deriving DecidableEq, Repr

/-- The `safetyKnowledge` score group. -/
structure SafetyKnowledge where
  score : JSNum
  protocolAwareness : JSNum
  hazardRecognition : JSNum
  emergencyResponse : JSNum
  criticalFailures : List String
  details : List ScoreDetail
deriving DecidableEq, Repr

/-- The `experience` score group. -/
structure ExperienceGroup where
  score : JSNum
  relevantExperience : JSNum
  projectExamples : JSNum
  troubleshootingAbility : JSNum
  details : List ScoreDetail
deriving DecidableEq, Repr

/-- The `communication` score group. -/
structure CommunicationGroup where
  score : JSNum
  clarity : JSNum
  professionalism : JSNum
  teamworkIndicators : JSNum
  details : List ScoreDetail
deriving DecidableEq, Repr

/-- The four named score groups of an assessment. -/
structure Scores where
  technicalSkills : TechnicalSkills
  safetyKnowledge : SafetyKnowledge
  experience : ExperienceGroup
  communication : CommunicationGroup
deriving DecidableEq, Repr

/-- Voice-analysis metrics. -/
structure VoiceAnalysis where
  confidenceScore : JSNum
  fluencyScore : JSNum
  hesitationCount : ℚ
  fillerWordCount : ℚ
  speakingRate : ℚ
  totalPauseTime : ℚ
deriving DecidableEq, Repr

/-- One per-question response record. -/
structure QuestionResponse where
  questionId : String
  question : String
  response : String
  category : String
  score : JSNum
  responseTime : ℚ
  confidence : ℚ
  keywordMatches : List String
  redFlags : List String
deriving DecidableEq, Repr

/-- The AI-insight bundle.  `overallAssessment` is an extra field written by
the vendor paths on top of the five schema fields. -/
structure AiInsights where
  strengths : List String
  weaknesses : List String
  recommendations : List String
  riskFactors : List String
  nextSteps : String
  overallAssessment : Option String
deriving DecidableEq, Repr

/-- An `assessments` document. -/
structure Assessment where
  sessionId : ℕ
  candidateId : ℕ
  overallScore : JSNum
  passed : Bool
  scores : Scores
  voiceAnalysis : Option VoiceAnalysis
  questionResponses : List QuestionResponse
  aiInsights : AiInsights
  completedAt : Int
deriving DecidableEq, Repr

/-! ## Database state and primitive operations -/

/-- Database state: the three tables touched by the modelled mutations,
plus the id counter used for inserts. -/
structure DB where
  sessions : List (ℕ × Session)
  candidates : List (ℕ × Candidate)
  assessments : List (ℕ × Assessment)
  nextId : ℕ
deriving DecidableEq, Repr

/-- Model of `ctx.db.get(id)` on a table. -/
def dbFind {α : Type} : List (ℕ × α) → ℕ → Option α
  | [], _ => none
  | p :: l, i => if p.1 == i then some p.2 else dbFind l i

/-- Replace the document with key `i` (no-op if the key is absent). -/
def listSet {α : Type} : List (ℕ × α) → ℕ → α → List (ℕ × α)
  | [], _, _ => []
  | p :: l, i, a => (if p.1 == i then (i, a) else p) :: listSet l i a

/-- First element of a table keyed by session id. -/
def findBySession : List (ℕ × Assessment) → ℕ → Option Assessment
  | [], _ => none
  | p :: l, sid => if p.2.sessionId == sid then some p.2 else findBySession l sid

/-- Model of `ctx.db.query("assessments").withIndex("by_session", …).first()`. -/
def assessmentForSession (db : DB) (sid : ℕ) : Option Assessment :=
  findBySession db.assessments sid

/-- Number of assessment documents keyed to a session. -/
def assessmentCountFor (db : DB) (sid : ℕ) : ℕ :=
  (db.assessments.filter (fun p => p.2.sessionId == sid)).length

/-- Model of `ctx.db.insert("assessments", …)`: returns the updated state and the
new document id. -/
def dbInsertAssessment (db : DB) (a : Assessment) : DB × ℕ :=
  ({ db with assessments := db.assessments ++ [(db.nextId, a)], nextId := db.nextId + 1 },
   db.nextId)

/-- Model of `ctx.db.patch` on a session; throws if the document does not exist. -/
def patchSession (db : DB) (sid : ℕ) (f : Session → Session) : Except String DB :=
  match dbFind db.sessions sid with
  | none => .error "Document not found"
  | some s => .ok { db with sessions := listSet db.sessions sid (f s) }

/-- Model of `ctx.db.patch` on a candidate; throws if the document does not exist. -/
def patchCandidate (db : DB) (cid : ℕ) (f : Candidate → Candidate) : Except String DB :=
  match dbFind db.candidates cid with
  | none => .error "Document not found"
  | some c => .ok { db with candidates := listSet db.candidates cid (f c) }

/-- Model of `ctx.db.patch` on an assessment; throws if the document does not exist. -/
def patchAssessment (db : DB) (aid : ℕ) (f : Assessment → Assessment) : Except String DB :=
  match dbFind db.assessments aid with
  | none => .error "Document not found"
  | some a => .ok { db with assessments := listSet db.assessments aid (f a) }

/-! ## Transcript extraction pipeline -/

/-- Filter `session.transcripts.filter(t => t.isFinal)`. -/
def finalTranscriptsOf (ts : List TranscriptEntry) : List TranscriptEntry :=
  ts.filter (fun t => t.isFinal)

/-- Finalized candidate-role entries of a transcript list. -/
def userResponsesOf (ts : List TranscriptEntry) : List TranscriptEntry :=
  (finalTranscriptsOf ts).filter (fun t => t.role == "user")

/-- Finalized interviewer-role entries of a transcript list. -/
def assistantQuestionsOf (ts : List TranscriptEntry) : List TranscriptEntry :=
  (finalTranscriptsOf ts).filter (fun t => t.role == "assistant")

/-- The assessment record inserted by `triggerTranscriptAssessment` and
(verbatim duplicate in the source) by `evaluateSessionTranscripts`. -/
def transcriptAssessmentRecord (sid cid : ℕ) (evaluation : Evaluation)
    (finalTranscripts : List TranscriptEntry) (now : Int) : Assessment :=
  { sessionId := sid
    candidateId := cid
    overallScore := evaluation.overallScore
    passed := evaluation.passed
    scores :=
      { technicalSkills :=
          { score := jsNum evaluation.technicalScore
            toolKnowledge := jsNum evaluation.technicalScore
            processUnderstanding := jsNum evaluation.technicalScore
            problemSolving := jsNum evaluation.technicalScore
            details := [⟨"Technical Knowledge", jsNum evaluation.technicalScore,
              "Based on transcript analysis"⟩] }
        safetyKnowledge :=
          { score := jsNum evaluation.technicalScore
            protocolAwareness := jsNum evaluation.technicalScore
            hazardRecognition := jsNum evaluation.technicalScore
            emergencyResponse := jsNum evaluation.technicalScore
            criticalFailures := []
            details := [⟨"Safety Awareness", jsNum evaluation.technicalScore,
              "Based on transcript analysis"⟩] }
        experience :=
          { score := evaluation.experienceScore
            relevantExperience := evaluation.experienceScore
            projectExamples := evaluation.experienceScore
            troubleshootingAbility := evaluation.experienceScore
            details := [⟨"Experience Level", evaluation.experienceScore,
              "Based on transcript analysis"⟩] }
        communication :=
          { score := jsNum evaluation.communicationScore
            clarity := jsNum evaluation.communicationScore
            professionalism := jsNum evaluation.communicationScore
            teamworkIndicators := jsNum evaluation.communicationScore
            details := [⟨"Communication Skills", jsNum evaluation.communicationScore,
              "Based on transcript analysis"⟩] } }
    voiceAnalysis := some
      { confidenceScore := jsNum evaluation.engagementScore
        fluencyScore := jsNum evaluation.communicationScore
        hesitationCount := 0
        fillerWordCount := 0
        speakingRate := 150
        totalPauseTime := 0 }
    questionResponses :=
      ((finalTranscripts.filter (fun t => t.role == "user")).enum).map (fun p =>
        { questionId := "q" ++ toString (p.1 + 1)
          question := "Question " ++ toString (p.1 + 1)
          response := p.2.text
          category := "general"
          score := jsNum (jsMinQ 100 ((p.2.text.length : ℚ) * 2))
          responseTime := 30
          confidence := jsOrNum p.2.confidence 0.8
          keywordMatches := evaluation.keywordMatches
          redFlags := [] })
    aiInsights :=
      { strengths := evaluation.strengths
        weaknesses := evaluation.weaknesses
        recommendations :=
          if evaluation.passed then
            ["Strong candidate for the position", "Proceed to next round"]
          else
            ["Needs improvement in key areas", "Consider additional training"]
        riskFactors := []
        nextSteps :=
          if evaluation.passed then "Proceed to next round"
          else "Consider alternative opportunities"
        overallAssessment := none }
    completedAt := now }

/-! ## Assessment mutations -/

/-- Result of `triggerTranscriptAssessment`. -/
structure TriggerResult where
  assessmentId : ℕ
  overallScore : JSNum
  passed : Bool
deriving DecidableEq, Repr

/-- Embeds `triggerTranscriptAssessment` (`assessments.ts`): the frontend-facing
transcript evaluation trigger.  Checks the session and its transcripts,
refuses when an assessment already exists, refuses when no finalized
candidate responses exist, then evaluates, inserts and patches the
candidate. -/
def triggerTranscriptAssessment (db : DB) (now : Int) (sessionId : ℕ) :
    Except String (DB × TriggerResult) :=
  match dbFind db.sessions sessionId with
  | none => .error "No session or transcripts found"
  | some session =>
    if session.transcripts.length = 0 then .error "No session or transcripts found"
    else if (assessmentForSession db sessionId).isSome then
      .error "Assessment already exists for this session"
    else
      match dbFind db.candidates session.candidateId with
      | none => .error "Candidate not found"
      | some candidate =>
        let finalTranscripts := finalTranscriptsOf session.transcripts
        let userResponses := finalTranscripts.filter (fun t => t.role == "user")
        let assistantQuestions := finalTranscripts.filter (fun t => t.role == "assistant")
        if userResponses.length = 0 then .error "No user responses found in transcripts"
        else
          let evaluation := evaluateInterviewTranscripts userResponses assistantQuestions
            candidate.tradeCategory candidate.position
          let ins := dbInsertAssessment db
            (transcriptAssessmentRecord sessionId session.candidateId evaluation
              finalTranscripts now)
          match patchCandidate ins.1 session.candidateId (fun c =>
              { c with screeningStatus := if evaluation.passed then "passed" else "failed",
                       lastContactAt := some now }) with
          | .error e => .error e
          | .ok db2 =>
            .ok (db2, { assessmentId := ins.2, overallScore := evaluation.overallScore,
                        passed := evaluation.passed })

/-- Result of `evaluateSessionTranscripts`. -/
structure EvalSessionResult where
  success : Bool
  reason : Option String
  assessmentId : Option ℕ
  score : Option JSNum
deriving DecidableEq, Repr

/-- Embeds `evaluateSessionTranscripts` (`assessments.ts`): the background
transcript evaluation.  Unlike `triggerTranscriptAssessment` it reports
failures as `success := false` return values instead of throwing, and it
performs no check that any finalized candidate response exists before
scoring. -/
def evaluateSessionTranscripts (db : DB) (now : Int) (sessionId : ℕ) :
    Except String (DB × EvalSessionResult) :=
  match dbFind db.sessions sessionId with
  | none => .ok (db, { success := false, reason := some "No transcripts",
                       assessmentId := none, score := none })
  | some session =>
    if session.transcripts.length = 0 then
      .ok (db, { success := false, reason := some "No transcripts",
                 assessmentId := none, score := none })
    else if (assessmentForSession db sessionId).isSome then
      .ok (db, { success := false, reason := some "Assessment exists",
                 assessmentId := none, score := none })
    else
      match dbFind db.candidates session.candidateId with
      | none => .ok (db, { success := false, reason := some "Candidate not found",
                           assessmentId := none, score := none })
      | some candidate =>
        let finalTranscripts := finalTranscriptsOf session.transcripts
        let userResponses := finalTranscripts.filter (fun t => t.role == "user")
        let assistantQuestions := finalTranscripts.filter (fun t => t.role == "assistant")
        let evaluation := evaluateInterviewTranscripts userResponses assistantQuestions
          candidate.tradeCategory candidate.position
        let ins := dbInsertAssessment db
          (transcriptAssessmentRecord sessionId session.candidateId evaluation
            finalTranscripts now)
        match patchCandidate ins.1 session.candidateId (fun c =>
            { c with screeningStatus := if evaluation.passed then "passed" else "failed",
                     lastContactAt := some now }) with
        | .error e => .error e
        | .ok db2 =>
          .ok (db2, { success := true, reason := none, assessmentId := some ins.2,
                      score := some evaluation.overallScore })

/-- The `details` object returned by `calculateBasicScore`. -/
structure BasicScoreDetails where
  completionScore : ℚ
  engagementScore : ℚ
  keywordScore : ℚ
  totalResponses : ℕ
  avgWordsPerResponse : ℚ
  sessionDurationMinutes : ℚ
deriving DecidableEq, Repr

/-- Result of `calculateBasicScore`. -/
structure BasicScoreResult where
  assessmentId : ℕ
  overallScore : ℚ
  passed : Bool
  details : BasicScoreDetails
deriving DecidableEq, Repr

/-- Embeds `calculateBasicScore` (`assessments.ts`, MVP scorer).  Notable against
the spec: it never queries for an existing assessment before inserting, it
does not filter transcripts by the finality flag, and it scores sessions
with zero candidate responses. -/
def calculateBasicScore (db : DB) (now : Int) (sessionId candidateId : ℕ) :
    Except String (DB × BasicScoreResult) :=
  match dbFind db.sessions sessionId with
  | none => .error "Session not found"
  | some session =>
    match dbFind db.candidates candidateId with
    | none => .error "Candidate not found"
    | some candidate =>
      let transcripts := session.transcripts
      let candidateResponses := transcripts.filter (fun t => t.role == "user")
      let totalResponses := candidateResponses.length
      let totalWords := totalUserWords candidateResponses
      let avgWords : ℚ :=
        if totalResponses > 0 then (totalWords : ℚ) / (totalResponses : ℚ) else 0
      let sessionDuration : ℚ := ((session.duration.getD 0 : ℤ) : ℚ)
      let completionScore := completionScoreOf sessionDuration
      let engagementScore : ℚ := jsMinQ 100 ((totalResponses : ℚ) * 10 + avgWords * 2)
      let keywordScore := calculateTradeKeywordScore candidateResponses candidate.tradeCategory
      let overallScore : ℚ :=
        jsRoundQ (completionScore * 0.3 + engagementScore * 0.4 + keywordScore * 0.3)
      let passed := decide (overallScore ≥ 60)
      let ins := dbInsertAssessment db
        { sessionId := sessionId
          candidateId := candidateId
          overallScore := jsNum overallScore
          passed := passed
          scores :=
            { technicalSkills :=
                { score := jsNum keywordScore, toolKnowledge := jsNum keywordScore
                  processUnderstanding := jsNum keywordScore
                  problemSolving := jsNum keywordScore, details := [] }
              safetyKnowledge :=
                { score := jsNum keywordScore, protocolAwareness := jsNum keywordScore
                  hazardRecognition := jsNum keywordScore
                  emergencyResponse := jsNum keywordScore
                  criticalFailures := [], details := [] }
              experience :=
                { score := jsNum engagementScore, relevantExperience := jsNum engagementScore
                  projectExamples := jsNum engagementScore
                  troubleshootingAbility := jsNum engagementScore, details := [] }
              communication :=
                { score := jsNum engagementScore, clarity := jsNum engagementScore
                  professionalism := jsNum engagementScore
                  teamworkIndicators := jsNum engagementScore, details := [] } }
          voiceAnalysis := none
          questionResponses :=
            (candidateResponses.enum).map (fun p =>
              { questionId := "q" ++ toString (p.1 + 1)
                question := "Question " ++ toString (p.1 + 1)
                response := p.2.text
                category := "general"
                score := jsNum (jsMinQ 100 (((jsSplitSpace p.2.text).length : ℚ) * 5))
                responseTime := 30
                confidence := jsOrNum p.2.confidence 0.8
                keywordMatches := []
                redFlags := [] })
          aiInsights :=
            { strengths := generateBasicStrengths overallScore engagementScore keywordScore
              weaknesses := generateBasicWeaknesses overallScore engagementScore keywordScore
              recommendations := generateBasicRecommendations passed overallScore
              riskFactors := []
              nextSteps :=
                if passed then "Proceed to next round" else "Consider alternative opportunities"
              overallAssessment := none }
          completedAt := now }
      match patchCandidate ins.1 candidateId (fun c =>
          { c with screeningStatus := if passed then "passed" else "failed",
                   lastContactAt := some now }) with
      | .error e => .error e
      | .ok db2 =>
        .ok (db2,
          { assessmentId := ins.2
            overallScore := overallScore
            passed := passed
            details :=
              { completionScore := completionScore
                engagementScore := engagementScore
                keywordScore := keywordScore
                totalResponses := totalResponses
                avgWordsPerResponse := avgWords
                sessionDurationMinutes := sessionDuration / 1000 / 60 } })

/-- Embeds `createAssessment` (`assessments.ts`, manual entry point).  It performs
no lookups and no duplicate check: it inserts unconditionally. -/
def createAssessment (db : DB) (now : Int) (sessionId candidateId : ℕ)
    (overallScore : ℚ) (passed : Bool) (notes : Option String) : DB × ℕ :=
  dbInsertAssessment db
    { sessionId := sessionId
      candidateId := candidateId
      overallScore := jsNum overallScore
      passed := passed
      scores :=
        { technicalSkills :=
            { score := jsNum overallScore, toolKnowledge := jsNum overallScore
              processUnderstanding := jsNum overallScore
              problemSolving := jsNum overallScore, details := [] }
          safetyKnowledge :=
            { score := jsNum overallScore, protocolAwareness := jsNum overallScore
              hazardRecognition := jsNum overallScore
              emergencyResponse := jsNum overallScore
              criticalFailures := [], details := [] }
          experience :=
            { score := jsNum overallScore, relevantExperience := jsNum overallScore
              projectExamples := jsNum overallScore
              troubleshootingAbility := jsNum overallScore, details := [] }
          communication :=
            { score := jsNum overallScore, clarity := jsNum overallScore
              professionalism := jsNum overallScore
              teamworkIndicators := jsNum overallScore, details := [] } }
      voiceAnalysis := none
      questionResponses := []
      aiInsights :=
        { strengths := if passed then ["Manual assessment - passed"] else []
          weaknesses := if passed then [] else ["Manual assessment - did not pass"]
          recommendations :=
            if passed then ["Proceed to next round"] else ["Consider alternative opportunities"]
          riskFactors := []
          nextSteps :=
            ((jsOrStr notes (some (if passed then "Proceed" else "Do not proceed"))).getD "")
          overallAssessment := none }
      completedAt := now }

/-- Embeds `updateAssessment` (`assessments.ts`): the HR correction path.  Builds an
update from the optional arguments only (the `notes` argument is used
only when truthy, i.e. present and non-empty) and patches the record. -/
def updateAssessment (db : DB) (assessmentId : ℕ) (overallScoreArg : Option ℚ)
    (passedArg : Option Bool) (notesArg : Option String) : Except String (DB × Bool) :=
  match dbFind db.assessments assessmentId with
  | none => .error "Assessment not found"
  | some assessment =>
    let a1 := match overallScoreArg with
      | some s => { assessment with overallScore := jsNum s }
      | none => assessment
    let a2 := match passedArg with
      | some p => { a1 with passed := p }
      | none => a1
    let a3 := match notesArg with
      | some n =>
        if n = "" then a2
        else { a2 with aiInsights := { a2.aiInsights with nextSteps := n } }
      | none => a2
    .ok ({ db with assessments := listSet db.assessments assessmentId a3 }, true)

/-! ## Session lifecycle mutations (sessions.ts) -/

/-- Embeds `completeSession`: marks a session completed, setting end time and
duration together, and moves the candidate to `completed`. -/
def completeSession (db : DB) (now : Int) (sessionId : ℕ)
    (recordingUrl : Option String) (finalTranscripts : Option (List TranscriptEntry)) :
    Except String (DB × Int) :=
  match dbFind db.sessions sessionId with
  | none => .error "Session not found"
  | some session =>
    let endTime := now
    let duration := endTime - session.startTime
    let session' := { session with
      status := "completed"
      endTime := some endTime
      duration := some duration
      recordingUrl := jsOrStr recordingUrl session.recordingUrl
      transcripts := finalTranscripts.getD session.transcripts }
    let db1 := { db with sessions := listSet db.sessions sessionId session' }
    match patchCandidate db1 session.candidateId (fun c =>
        { c with screeningStatus := "completed", lastContactAt := some endTime }) with
    | .error e => .error e
    | .ok db2 => .ok (db2, duration)

/-- The `errorDetails` argument of `failSession` (its free-form `details`
record is not consulted and is omitted). -/
structure FailErrorDetails where
  code : String
  message : String
deriving DecidableEq, Repr

/-- Embeds `failSession`: marks a session `failed` or `abandoned`, setting end time
and duration, appending the error details if given, and mapping the
candidate to `invited` (abandoned) or `pending_review` (failed).  It
computes no assessment. -/
def failSession (db : DB) (now : Int) (sessionId : ℕ) (reason : String)
    (errorDetails : Option FailErrorDetails) : Except String (DB × Bool) :=
  match dbFind db.sessions sessionId with
  | none => .error "Session not found"
  | some session =>
    let endTime := now
    let duration := endTime - session.startTime
    let errs : Option (List SessionError) :=
      match errorDetails with
      | some ed => some ((session.errors.getD []) ++ [⟨ed.code, ed.message, endTime⟩])
      | none => session.errors
    let session' := { session with
      status := reason
      endTime := some endTime
      duration := some duration
      errors := errs }
    let db1 := { db with sessions := listSet db.sessions sessionId session' }
    let candidateStatus := if reason == "abandoned" then "invited" else "pending_review"
    match patchCandidate db1 session.candidateId (fun c =>
        { c with screeningStatus := candidateStatus, lastContactAt := some endTime }) with
    | .error e => .error e
    | .ok db2 => .ok (db2, true)

/-! ## Vendor-webhook processing (vapiIntegration.ts) -/

/-- The `analysis` part of a vendor call payload as read by
`processVapiSession` (`successEvaluation` is used numerically there). -/
structure VapiAnalysis where
  successEvaluation : Option ℚ
deriving DecidableEq, Repr

/-- One message of a vendor call payload. -/
structure VapiMessage where
  role : String
  message : Option String
  time : Option Int
deriving DecidableEq, Repr

/-- The vendor call payload fields read by `processVapiSession`. -/
structure VapiCallData where
  analysis : Option VapiAnalysis
  messages : Option (List VapiMessage)
  recordingUrl : Option String
deriving DecidableEq, Repr

/-- Embeds `processVapiSession` (`vapiIntegration.ts`): consumes the vendor call
payload, inserts an assessment built from the vendor score without any
existing-assessment check, then patches the session (status `completed`,
`endTime` set — but no `duration`) and the candidate.  The inserted
insights carry `overallAssessment` but no `nextSteps` (modelled as `""`;
the source omits the field entirely). -/
def processVapiSession (db : DB) (now : Int) (sessionId : ℕ)
    (_vapiSessionId : String) (vapiCallData : VapiCallData) :
    Except String (DB × (ℚ × Bool)) :=
  match dbFind db.sessions sessionId with
  | none => .error "Session not found"
  | some session =>
    let overallScore : ℚ := jsOrNum (vapiCallData.analysis.bind (fun a => a.successEvaluation)) 0
    let passed := decide (overallScore ≥ 70)
    let transcripts : List TranscriptEntry :=
      (((vapiCallData.messages.getD []).filter
          (fun m => m.role == "user" || m.role == "bot")).enum).map (fun p =>
        { id := "transcript_" ++ toString p.1
          text := p.2.message.getD ""
          role := if p.2.role == "bot" then "assistant" else "user"
          timestamp := jsOrTime p.2.time now
          confidence := some 1
          isFinal := true })
    let baseScore := overallScore
    let ins := dbInsertAssessment db
      { sessionId := sessionId
        candidateId := session.candidateId
        overallScore := jsNum baseScore
        passed := passed
        scores :=
          { technicalSkills :=
              { score := jsNum baseScore, toolKnowledge := jsNum baseScore
                processUnderstanding := jsNum baseScore, problemSolving := jsNum baseScore
                details := [⟨"General Technical", jsNum baseScore, "Based on voice interview"⟩] }
            safetyKnowledge :=
              { score := jsNum baseScore, protocolAwareness := jsNum baseScore
                hazardRecognition := jsNum baseScore, emergencyResponse := jsNum baseScore
                criticalFailures := []
                details := [⟨"Safety Awareness", jsNum baseScore, "Based on voice interview"⟩] }
            experience :=
              { score := jsNum baseScore, relevantExperience := jsNum baseScore
                projectExamples := jsNum baseScore, troubleshootingAbility := jsNum baseScore
                details := [⟨"Experience Assessment", jsNum baseScore,
                  "Based on voice interview"⟩] }
            communication :=
              { score := jsNum baseScore, clarity := jsNum baseScore
                professionalism := jsNum baseScore, teamworkIndicators := jsNum baseScore
                details := [⟨"Communication Skills", jsNum baseScore,
                  "Based on voice interview"⟩] } }
        voiceAnalysis := some
          { confidenceScore := jsNum baseScore, fluencyScore := jsNum baseScore
            hesitationCount := 0, fillerWordCount := 0, speakingRate := 150,
            totalPauseTime := 0 }
        questionResponses := []
        aiInsights :=
          { strengths := if passed then ["Successful interview completion"] else []
            weaknesses := if passed then [] else ["Areas for improvement identified"]
            recommendations :=
              if passed then ["Candidate shows potential"] else ["Consider additional screening"]
            riskFactors := []
            nextSteps := ""
            overallAssessment := some (if passed then "RECOMMENDED" else "NOT_RECOMMENDED") }
        completedAt := now }
    match patchSession ins.1 sessionId (fun s =>
        { s with transcripts := transcripts, recordingUrl := vapiCallData.recordingUrl,
                 status := "completed", endTime := some now }) with
    | .error e => .error e
    | .ok db2 =>
      match patchCandidate db2 session.candidateId (fun c =>
          { c with screeningStatus := if passed then "passed" else "failed",
                   lastContactAt := some now }) with
      | .error e => .error e
      | .ok db3 => .ok (db3, (baseScore, passed))

/-! ## Session timing invariant (spec §3) -/

/-- The session timing invariant: `duration` is defined iff the end time is
set (the start time is a required schema field, so the "both start and end"
clause reduces to the end time), and a terminal status implies the end time
is set. -/
def sessionTimingInvB (s : Session) : Bool :=
  (s.duration.isSome == s.endTime.isSome)
  && (!(s.status == "completed" || s.status == "failed" || s.status == "abandoned")
      || s.endTime.isSome)

/-! ## Helper lemmas -/

lemma jsMinQ_eq_min (a b : ℚ) : jsMinQ a b = min a b := (min_def a b).symm

lemma jsMaxQ_eq_max (a b : ℚ) : jsMaxQ a b = max a b := (max_def a b).symm

/-- The `Math.min(100, ·)` clamp maps a non-negative input into `[0, 100]`. -/
lemma clamp100_bounds (x : ℚ) (hx : 0 ≤ x) : 0 ≤ jsMinQ 100 x ∧ jsMinQ 100 x ≤ 100 := by
  rw [jsMinQ_eq_min]
  exact ⟨le_min (by norm_num) hx, min_le_left _ _⟩

lemma jsMinQ_of_le (a b : ℚ) (h : b ≤ a) : jsMinQ a b = b := by
  rw [jsMinQ_eq_min]; exact min_eq_right h

lemma avgWordsPerResponse_nonneg (rs : List TranscriptEntry) : 0 ≤ avgWordsPerResponse rs := by
  unfold avgWordsPerResponse
  split
  · exact div_nonneg (Nat.cast_nonneg _) (Nat.cast_nonneg _)
  · exact le_refl 0

lemma calculateAdvancedKeywordScore_bounds (rs : List TranscriptEntry) (c : String) :
    0 ≤ calculateAdvancedKeywordScore rs c ∧ calculateAdvancedKeywordScore rs c ≤ 100 := by
  unfold calculateAdvancedKeywordScore
  refine clamp100_bounds _ ?_
  unfold primaryWeight secondaryWeight safetyWeight
  positivity

lemma calculateTradeKeywordScore_bounds (rs : List TranscriptEntry) (c : String) :
    0 ≤ calculateTradeKeywordScore rs c ∧ calculateTradeKeywordScore rs c ≤ 100 := by
  unfold calculateTradeKeywordScore
  refine clamp100_bounds _ ?_
  positivity

lemma calculateExperienceScore_empty : calculateExperienceScore [] = none := rfl

lemma calculateExperienceScore_some (rs : List TranscriptEntry) (h : rs ≠ []) :
    ∃ e : ℚ, calculateExperienceScore rs = some e ∧ 0 ≤ e ∧ e ≤ 100 := by
  unfold calculateExperienceScore
  have hlen : ((rs.length : ℚ)) ≠ 0 := by
    exact_mod_cast Nat.cast_ne_zero.mpr (fun hz => h (List.length_eq_zero.mp hz))
  have hsum : 0 ≤ (rs.map (fun r => (r.text.length : ℚ))).sum := by
    apply List.sum_nonneg
    intro x hx
    obtain ⟨r, _, rfl⟩ := List.mem_map.mp hx
    exact Nat.cast_nonneg _
  simp only [jsDiv, jsNum, hlen, if_false, reduceIte]
  have h5 : ((5:ℚ)) ≠ 0 := by norm_num
  simp only [h5, reduceIte, jsAdd, jsMin]
  refine ⟨_, rfl, clamp100_bounds _ ?_⟩
  have hd : 0 ≤ (rs.map (fun r => (r.text.length : ℚ))).sum / (rs.length : ℚ) :=
    div_nonneg hsum (Nat.cast_nonneg _)
  positivity

/-- Case analysis on the experience score. -/
lemma calculateExperienceScore_cases (rs : List TranscriptEntry) :
    calculateExperienceScore rs = none
    ∨ ∃ e : ℚ, calculateExperienceScore rs = some e ∧ 0 ≤ e ∧ e ≤ 100 := by
  rcases eq_or_ne rs [] with h | h
  · subst h; exact Or.inl rfl
  · exact Or.inr (calculateExperienceScore_some rs h)

/-- Rounding a value of `[0, 100]` yields an integer in `[0, 100]`. -/
lemma jsRoundQ_bounds (x : ℚ) (h0 : 0 ≤ x) (h1 : x ≤ 100) :
    ∃ z : ℤ, jsRoundQ x = (z : ℚ) ∧ 0 ≤ z ∧ z ≤ 100 := by
  refine ⟨⌊x + 1/2⌋, rfl, Int.floor_nonneg.mpr (by linarith), ?_⟩
  have h2 : ⌊x + 1/2⌋ < 101 := Int.floor_lt.mpr (by push_cast; linarith)
  omega

/-- The blended `Math.round(c*0.25 + t*0.35 + e*0.25 + g*0.15)` when the
experience score is a number. -/
lemma jsBlend_some (c t g q : ℚ) :
    jsRound (jsAdd (jsAdd (jsAdd (jsNum (c * 0.25)) (jsNum (t * 0.35)))
        (jsMul (some q) (jsNum 0.25))) (jsNum (g * 0.15)))
      = some (jsRoundQ (c * 0.25 + t * 0.35 + q * 0.25 + g * 0.15)) := rfl

/-- The blended round is NaN when the experience score is NaN. -/
lemma jsBlend_none (c t g : ℚ) :
    jsRound (jsAdd (jsAdd (jsAdd (jsNum (c * 0.25)) (jsNum (t * 0.35)))
        (jsMul none (jsNum 0.25))) (jsNum (g * 0.15))) = none := rfl

/-- The weighted blend of four scores in `[0, 100]` with the source's
weights (0.25, 0.35, 0.25, 0.15, summing to 1) stays in `[0, 100]`. -/
lemma blend_in_range (c t q g : ℚ)
    (hc0 : 0 ≤ c) (hc1 : c ≤ 100) (ht0 : 0 ≤ t) (ht1 : t ≤ 100)
    (hq0 : 0 ≤ q) (hq1 : q ≤ 100) (hg0 : 0 ≤ g) (hg1 : g ≤ 100) :
    0 ≤ c * 0.25 + t * 0.35 + q * 0.25 + g * 0.15
    ∧ c * 0.25 + t * 0.35 + q * 0.25 + g * 0.15 ≤ 100 := by
  norm_num
  constructor <;> nlinarith

/-! ## Claim C7: weighted, clamped keyword score -/

/-- C7: the technical/keyword score is the weighted hit count with per-hit
weights strictly ordered primary (10) > safety (8) > secondary (5), and the
raw weighted sum is clamped so the score never leaves `[0, 100]` no matter
how many keywords match. -/
theorem C7_keywordScore_weighted_clamped (responses : List TranscriptEntry) (c : String) :
    calculateAdvancedKeywordScore responses c
      = jsMinQ 100 ((tierMatchCount responses (lexiconFor c).primary : ℚ) * primaryWeight
          + (tierMatchCount responses (lexiconFor c).secondary : ℚ) * secondaryWeight
          + (tierMatchCount responses (lexiconFor c).safety : ℚ) * safetyWeight)
    ∧ safetyWeight < primaryWeight ∧ secondaryWeight < safetyWeight
    ∧ 0 ≤ calculateAdvancedKeywordScore responses c
    ∧ calculateAdvancedKeywordScore responses c ≤ 100 :=
  ⟨rfl, by norm_num [primaryWeight, safetyWeight],
    by norm_num [safetyWeight, secondaryWeight],
    (calculateAdvancedKeywordScore_bounds responses c).1,
    (calculateAdvancedKeywordScore_bounds responses c).2⟩

/-! ## Claim C6: trade-category fallback and the prototype-chain exception -/

lemma advancedTradeKeywords_unknown (c : String)
    (h1 : c ≠ "construction") (h2 : c ≠ "electrical") (h3 : c ≠ "plumbing")
    (h4 : c ≠ "welding") (h5 : c ≠ "manufacturing") (h6 : c ≠ "maintenance")
    (h7 : c ≠ "general") : advancedTradeKeywords c = none := by
  unfold advancedTradeKeywords
  rw [if_neg h1, if_neg h2, if_neg h3, if_neg h4, if_neg h5, if_neg h6, if_neg h7]

lemma basicTradeKeywords_unknown (c : String)
    (h1 : c ≠ "construction") (h2 : c ≠ "electrical") (h3 : c ≠ "plumbing")
    (h4 : c ≠ "welding") (h5 : c ≠ "manufacturing") (h6 : c ≠ "maintenance")
    (h7 : c ≠ "general") : basicTradeKeywords c = none := by
  unfold basicTradeKeywords
  rw [if_neg h1, if_neg h2, if_neg h3, if_neg h4, if_neg h5, if_neg h6, if_neg h7]

lemma unknownCategory_scores_as_general (responses : List TranscriptEntry) (c : String)
    (h1 : c ≠ "construction") (h2 : c ≠ "electrical") (h3 : c ≠ "plumbing")
    (h4 : c ≠ "welding") (h5 : c ≠ "manufacturing") (h6 : c ≠ "maintenance")
    (h7 : c ≠ "general") :
    calculateAdvancedKeywordScore responses c = calculateAdvancedKeywordScore responses "general"
    ∧ calculateTradeKeywordScore responses c = calculateTradeKeywordScore responses "general" := by
  constructor
  · unfold calculateAdvancedKeywordScore lexiconFor
    rw [advancedTradeKeywords_unknown c h1 h2 h3 h4 h5 h6 h7]
    rfl
  · unfold calculateTradeKeywordScore
    rw [basicTradeKeywords_unknown c h1 h2 h3 h4 h5 h6 h7]
    rfl

/-- C6 counterexample: "toString" is an unrecognized trade-category string,
yet the lookup does not resolve it to the `general` lexicon — the JS
property access finds the truthy inherited `Object.prototype.toString`
function, the `|| general` fallback is skipped, and both keyword scorers
throw a TypeError instead of returning a score. -/
theorem C6_counterexample_prototype_key_throws :
    ("toString" ∉ (["construction", "electrical", "plumbing", "welding", "manufacturing",
                    "maintenance", "general"] : List String))
    ∧ calculateAdvancedKeywordScoreJs [] "toString"
        = .error "TypeError: Cannot read properties of undefined (reading filter)"
    ∧ calculateTradeKeywordScoreJs [] "toString"
        = .error "TypeError: keywords.filter is not a function"
    ∧ (calculateAdvancedKeywordScoreJs [] "toString").toOption = none
    ∧ (calculateTradeKeywordScoreJs [] "toString").toOption = none := by decide

/-- C6 (amended): an unrecognized trade-category string that is not an
`Object.prototype` member name resolves to the `general` lexicon and both
keyword scorers return a score without raising an error; but for an
unrecognized string that names an `Object.prototype` member, the property
access returns the truthy inherited value, the `|| general` fallback never
fires, and both scorers throw a TypeError instead of scoring. -/
theorem C6_amended_fallback_except_prototype_keys (responses : List TranscriptEntry)
    (c : String)
    (h : c ∉ (["construction", "electrical", "plumbing", "welding", "manufacturing",
               "maintenance", "general"] : List String)) :
    (c ∉ objectPrototypeKeys →
      calculateAdvancedKeywordScoreJs responses c
        = .ok (calculateAdvancedKeywordScore responses "general")
      ∧ calculateTradeKeywordScoreJs responses c
        = .ok (calculateTradeKeywordScore responses "general"))
    ∧ (c ∈ objectPrototypeKeys →
      calculateAdvancedKeywordScoreJs responses c
        = .error "TypeError: Cannot read properties of undefined (reading filter)"
      ∧ calculateTradeKeywordScoreJs responses c
        = .error "TypeError: keywords.filter is not a function") := by
  simp only [List.mem_cons, List.not_mem_nil, or_false] at h
  push_neg at h
  obtain ⟨h1, h2, h3, h4, h5, h6, h7⟩ := h
  have hadv := advancedTradeKeywords_unknown c h1 h2 h3 h4 h5 h6 h7
  have hbas := basicTradeKeywords_unknown c h1 h2 h3 h4 h5 h6 h7
  constructor
  · intro hp
    have hval := unknownCategory_scores_as_general responses c h1 h2 h3 h4 h5 h6 h7
    have hacc : advancedTradeKeywordsAccess c = .undefined := by
      simp [advancedTradeKeywordsAccess, hadv, hp]
    have hacc2 : basicTradeKeywordsAccess c = .undefined := by
      simp [basicTradeKeywordsAccess, hbas, hp]
    constructor
    · simp only [calculateAdvancedKeywordScoreJs, hacc]
      rw [hval.1]
    · simp only [calculateTradeKeywordScoreJs, hacc2]
      rw [hval.2]
  · intro hp
    have hacc : advancedTradeKeywordsAccess c = .inherited := by
      simp [advancedTradeKeywordsAccess, hadv, hp]
    have hacc2 : basicTradeKeywordsAccess c = .inherited := by
      simp [basicTradeKeywordsAccess, hbas, hp]
    constructor
    · simp only [calculateAdvancedKeywordScoreJs, hacc]
    · simp only [calculateTradeKeywordScoreJs, hacc2]

/-- Witness for C6 (amended) at the plain unknown category "carpentry" and
the prototype-member category "toString". -/
theorem C6_amended_fallback_witness :
    (("carpentry" ∉ (["construction", "electrical", "plumbing", "welding", "manufacturing",
                      "maintenance", "general"] : List String))
      ∧ "carpentry" ∉ objectPrototypeKeys
      ∧ ("toString" ∉ (["construction", "electrical", "plumbing", "welding", "manufacturing",
                        "maintenance", "general"] : List String))
      ∧ "toString" ∈ objectPrototypeKeys)
    ∧ (calculateAdvancedKeywordScoreJs [] "carpentry"
          = .ok (calculateAdvancedKeywordScore [] "general")
        ∧ calculateTradeKeywordScoreJs [] "carpentry"
          = .ok (calculateTradeKeywordScore [] "general"))
    ∧ (calculateAdvancedKeywordScoreJs [] "toString"
          = .error "TypeError: Cannot read properties of undefined (reading filter)"
        ∧ calculateTradeKeywordScoreJs [] "toString"
          = .error "TypeError: keywords.filter is not a function") :=
  ⟨⟨by decide, by decide, by decide, by decide⟩,
    (C6_amended_fallback_except_prototype_keys [] "carpentry" (by decide)).1 (by decide),
    (C6_amended_fallback_except_prototype_keys [] "toString" (by decide)).2 (by decide)⟩

/-! ## Claim C5: the vendor success signal acts as a clamp -/

lemma vapiBaseScore_cases (u : List TranscriptEntry) (c : String) :
    vapiBaseScore u c = none ∨ ∃ q : ℚ, vapiBaseScore u c = some q ∧ 0 ≤ q ∧ q ≤ 100 := by
  rcases calculateExperienceScore_cases u with he | ⟨e, he, he0, he1⟩
  · left
    simp only [vapiBaseScore, he]
    exact jsBlend_none _ _ _
  · right
    simp only [vapiBaseScore, he, jsBlend_some]
    have hcomm := clamp100_bounds (avgWordsPerResponse u * 4 + (u.length : ℚ) * 6)
      (by have h1 := avgWordsPerResponse_nonneg u
          have h2 := Nat.cast_nonneg (α := ℚ) u.length
          nlinarith)
    have htech := calculateAdvancedKeywordScore_bounds u c
    have heng := clamp100_bounds ((u.length : ℚ) * 10)
      (by have h2 := Nat.cast_nonneg (α := ℚ) u.length; nlinarith)
    obtain ⟨hr0, hr1⟩ := blend_in_range _ _ _ _ hcomm.1 hcomm.2 htech.1 htech.2 he0 he1
      heng.1 heng.2
    obtain ⟨z, hz, hz0, hz1⟩ := jsRoundQ_bounds _ hr0 hr1
    exact ⟨_, rfl, by rw [hz]; exact_mod_cast hz0, by rw [hz]; exact_mod_cast hz1⟩

/-- C5: in the vendor-data evaluation path, the external success signal is a
clamp on the internally computed score S: a positive signal yields
`max(S, 70)`, a negative signal yields `min(S, 60)`, and no signal leaves S
unchanged (so a positive signal never lowers a score and a negative one
never raises it beyond the clamp bounds). -/
theorem C5_externalSignal_clamp (u a : List TranscriptEntry) (c p : String) :
    (evaluateFromVapiData u a c p none).overallScore = vapiBaseScore u c
    ∧ (evaluateFromVapiData u a c p (some true)).overallScore
        = jsMax ((evaluateFromVapiData u a c p none).overallScore) (jsNum 70)
    ∧ (evaluateFromVapiData u a c p (some false)).overallScore
        = jsMin ((evaluateFromVapiData u a c p none).overallScore) (jsNum 60) := by
  have hB := vapiBaseScore_cases u c
  have hnone : (evaluateFromVapiData u a c p none).overallScore
      = jsMin (jsNum 100) (vapiBaseScore u c) := by
    simp only [evaluateFromVapiData, vapiAdjustScore]
  have htrue : (evaluateFromVapiData u a c p (some true)).overallScore
      = jsMin (jsNum 100) (jsMax (vapiBaseScore u c) (jsNum 70)) := by
    simp only [evaluateFromVapiData, vapiAdjustScore]
  have hfalse : (evaluateFromVapiData u a c p (some false)).overallScore
      = jsMin (jsNum 100) (jsMin (vapiBaseScore u c) (jsNum 60)) := by
    simp only [evaluateFromVapiData, vapiAdjustScore]
  have hid : jsMin (jsNum 100) (vapiBaseScore u c) = vapiBaseScore u c := by
    rcases hB with h | ⟨q, h, _, h1⟩
    · rw [h]; rfl
    · rw [h]
      simp only [jsMin, jsNum, jsMinQ_of_le 100 q h1]
  refine ⟨by rw [hnone, hid], ?_, ?_⟩
  · rw [htrue, hnone, hid]
    rcases hB with h | ⟨q, h, _, h1⟩
    · rw [h]; rfl
    · rw [h]
      simp only [jsMax, jsMin, jsNum]
      congr 1
      rw [jsMinQ_eq_min, jsMaxQ_eq_max]
      exact min_eq_right (max_le h1 (by norm_num))
  · rw [hfalse, hnone, hid]
    rcases hB with h | ⟨q, h, _, _⟩
    · rw [h]; rfl
    · rw [h]
      simp only [jsMin, jsNum]
      congr 1
      rw [jsMinQ_eq_min, jsMinQ_eq_min]
      exact min_eq_right (le_trans (min_le_right q 60) (by norm_num))

/-! ## Claim C3: score bounds -/

/-- C3 counterexample: on an empty candidate-response list the experience
score is NaN (JS `0/0` propagated: `avgResponseLength` divides by
`responses.length` without a guard), and so is the blended overall score —
not a real number in `[0, 100]`. -/
theorem C3_counterexample_nan_on_empty :
    calculateExperienceScore [] = none
    ∧ (evaluateInterviewTranscripts [] [] "construction" "worker").experienceScore = none
    ∧ (evaluateInterviewTranscripts [] [] "construction" "worker").overallScore = none := by
  decide

/-- C3 (amended): for every transcript with at least one candidate response
and every non-negative session duration, each sub-score (technical/keyword
in both scorers, experience, communication, engagement, completion) lies in
`[0, 100]`, and the blended overall score is an integer in `[0, 100]`; the
original claim fails only on an empty response list, where the experience
score (and hence the overall score) is NaN. -/
theorem C3_amended_subScores_bounded (responses aq : List TranscriptEntry) (c p : String)
    (d : ℚ) (hne : responses ≠ []) (hd : 0 ≤ d) :
    (0 ≤ calculateAdvancedKeywordScore responses c
      ∧ calculateAdvancedKeywordScore responses c ≤ 100)
    ∧ (0 ≤ calculateTradeKeywordScore responses c
      ∧ calculateTradeKeywordScore responses c ≤ 100)
    ∧ (∃ e : ℚ, calculateExperienceScore responses = some e ∧ 0 ≤ e ∧ e ≤ 100)
    ∧ (0 ≤ (evaluateInterviewTranscripts responses aq c p).communicationScore
      ∧ (evaluateInterviewTranscripts responses aq c p).communicationScore ≤ 100)
    ∧ (0 ≤ (evaluateInterviewTranscripts responses aq c p).engagementScore
      ∧ (evaluateInterviewTranscripts responses aq c p).engagementScore ≤ 100)
    ∧ (0 ≤ completionScoreOf d ∧ completionScoreOf d ≤ 100)
    ∧ (∃ z : ℤ, (evaluateInterviewTranscripts responses aq c p).overallScore = some (z : ℚ)
      ∧ 0 ≤ z ∧ z ≤ 100) := by
  obtain ⟨e, he, he0, he1⟩ := calculateExperienceScore_some responses hne
  have hcomm := clamp100_bounds (avgWordsPerResponse responses * 3 + (responses.length : ℚ) * 5)
    (by have h1 := avgWordsPerResponse_nonneg responses
        have h2 := Nat.cast_nonneg (α := ℚ) responses.length
        nlinarith)
  have htech := calculateAdvancedKeywordScore_bounds responses c
  have heng := clamp100_bounds ((responses.length : ℚ) * 8)
    (by have h2 := Nat.cast_nonneg (α := ℚ) responses.length; nlinarith)
  have hcomm' : (evaluateInterviewTranscripts responses aq c p).communicationScore
      = jsMinQ 100 (avgWordsPerResponse responses * 3 + (responses.length : ℚ) * 5) := by
    simp only [evaluateInterviewTranscripts]
  have heng' : (evaluateInterviewTranscripts responses aq c p).engagementScore
      = jsMinQ 100 ((responses.length : ℚ) * 8) := by
    simp only [evaluateInterviewTranscripts]
  refine ⟨htech, calculateTradeKeywordScore_bounds responses c, ⟨e, he, he0, he1⟩,
    ?_, ?_, ?_, ?_⟩
  · rw [hcomm']; exact hcomm
  · rw [heng']; exact heng
  · unfold completionScoreOf minRequiredDuration
    split
    · norm_num
    · rename_i hlt
      constructor
      · positivity
      · rw [not_le] at hlt
        rw [div_mul_eq_mul_div, div_le_iff₀ (by norm_num)]
        nlinarith
  · have hover : (evaluateInterviewTranscripts responses aq c p).overallScore
        = some (jsRoundQ
            (jsMinQ 100 (avgWordsPerResponse responses * 3 + (responses.length : ℚ) * 5) * 0.25
              + calculateAdvancedKeywordScore responses c * 0.35 + e * 0.25
              + jsMinQ 100 ((responses.length : ℚ) * 8) * 0.15)) := by
      simp only [evaluateInterviewTranscripts, he, jsBlend_some]
    obtain ⟨hr0, hr1⟩ := blend_in_range _ _ _ _ hcomm.1 hcomm.2 htech.1 htech.2 he0 he1
      heng.1 heng.2
    obtain ⟨z, hz, hz0, hz1⟩ := jsRoundQ_bounds _ hr0 hr1
    exact ⟨z, by rw [hover, hz], hz0, hz1⟩

/-- Witness for C3 (amended) at a one-response construction transcript and a
one-minute duration. -/
theorem C3_amended_subScores_bounded_witness :
    ((([⟨"t1", "I have 5 years of experience", "user", 0, none, true⟩] :
        List TranscriptEntry) ≠ []) ∧ (0 : ℚ) ≤ 60000)
    ∧ ((0 ≤ calculateAdvancedKeywordScore
          [⟨"t1", "I have 5 years of experience", "user", 0, none, true⟩] "construction"
        ∧ calculateAdvancedKeywordScore
            [⟨"t1", "I have 5 years of experience", "user", 0, none, true⟩] "construction"
          ≤ 100)
      ∧ (0 ≤ calculateTradeKeywordScore
            [⟨"t1", "I have 5 years of experience", "user", 0, none, true⟩] "construction"
        ∧ calculateTradeKeywordScore
            [⟨"t1", "I have 5 years of experience", "user", 0, none, true⟩] "construction"
          ≤ 100)
      ∧ (∃ e : ℚ, calculateExperienceScore
            [⟨"t1", "I have 5 years of experience", "user", 0, none, true⟩] = some e
          ∧ 0 ≤ e ∧ e ≤ 100)
      ∧ (0 ≤ (evaluateInterviewTranscripts
            [⟨"t1", "I have 5 years of experience", "user", 0, none, true⟩] [] "construction"
            "w").communicationScore
        ∧ (evaluateInterviewTranscripts
            [⟨"t1", "I have 5 years of experience", "user", 0, none, true⟩] [] "construction"
            "w").communicationScore ≤ 100)
      ∧ (0 ≤ (evaluateInterviewTranscripts
            [⟨"t1", "I have 5 years of experience", "user", 0, none, true⟩] [] "construction"
            "w").engagementScore
        ∧ (evaluateInterviewTranscripts
            [⟨"t1", "I have 5 years of experience", "user", 0, none, true⟩] [] "construction"
            "w").engagementScore ≤ 100)
      ∧ (0 ≤ completionScoreOf 60000 ∧ completionScoreOf 60000 ≤ 100)
      ∧ (∃ z : ℤ, (evaluateInterviewTranscripts
            [⟨"t1", "I have 5 years of experience", "user", 0, none, true⟩] [] "construction"
            "w").overallScore = some (z : ℚ) ∧ 0 ≤ z ∧ z ≤ 100)) :=
  ⟨⟨by decide, by norm_num⟩,
    C3_amended_subScores_bounded
      [⟨"t1", "I have 5 years of experience", "user", 0, none, true⟩] [] "construction" "w"
      60000 (by decide) (by norm_num)⟩

/-! ## Claim C4: the finality filter -/

/-- C4 (amended): in the transcript-based evaluation paths (the trigger and
the background evaluation both score
`evaluateInterviewTranscripts (userResponsesOf ts) (assistantQuestionsOf ts)`),
appending an entry whose finality flag is false leaves every sub-score and
the overall score unchanged; the basic/MVP scorer, in contrast, ignores the
finality flag (see the counterexample). -/
theorem C4_amended_finality_filter (ts : List TranscriptEntry) (e : TranscriptEntry)
    (c p : String) (h : e.isFinal = false) :
    evaluateInterviewTranscripts (userResponsesOf (ts ++ [e]))
      (assistantQuestionsOf (ts ++ [e])) c p
      = evaluateInterviewTranscripts (userResponsesOf ts) (assistantQuestionsOf ts) c p := by
  have hf : finalTranscriptsOf (ts ++ [e]) = finalTranscriptsOf ts := by
    simp [finalTranscriptsOf, List.filter_append, h]
  rw [userResponsesOf, assistantQuestionsOf, hf, ← userResponsesOf, ← assistantQuestionsOf]

/-- Witness for C4 (amended): appending a non-final candidate entry to a
one-entry transcript leaves the transcript-based evaluation unchanged. -/
theorem C4_amended_finality_filter_witness :
    ((⟨"t2", "work job task team", "user", 1, none, false⟩ : TranscriptEntry).isFinal = false)
    ∧ evaluateInterviewTranscripts
        (userResponsesOf ([⟨"t1", "hello", "user", 0, none, true⟩]
          ++ [⟨"t2", "work job task team", "user", 1, none, false⟩]))
        (assistantQuestionsOf ([⟨"t1", "hello", "user", 0, none, true⟩]
          ++ [⟨"t2", "work job task team", "user", 1, none, false⟩])) "general" "w"
      = evaluateInterviewTranscripts
          (userResponsesOf [⟨"t1", "hello", "user", 0, none, true⟩])
          (assistantQuestionsOf [⟨"t1", "hello", "user", 0, none, true⟩]) "general" "w" :=
  ⟨rfl, C4_amended_finality_filter [⟨"t1", "hello", "user", 0, none, true⟩]
    ⟨"t2", "work job task team", "user", 1, none, false⟩ "general" "w" rfl⟩

/-! ## Database lemmas -/

lemma dbFind_listSet_self {α : Type} (l : List (ℕ × α)) (i : ℕ) (a b : α)
    (h : dbFind l i = some b) : dbFind (listSet l i a) i = some a := by
  induction l with
  | nil => simp [dbFind] at h
  | cons hd tl ih =>
    by_cases hj : hd.1 = i
    · simp [dbFind, listSet, hj]
    · simp only [dbFind, listSet, beq_iff_eq, hj, reduceIte] at h ⊢
      exact ih h

lemma dbFind_listSet_ne {α : Type} (l : List (ℕ × α)) (i j : ℕ) (a : α) (h : j ≠ i) :
    dbFind (listSet l i a) j = dbFind l j := by
  induction l with
  | nil => rfl
  | cons hd tl ih =>
    by_cases hj : hd.1 = i
    · simp [dbFind, listSet, hj, Ne.symm h, ih]
    · simp [dbFind, listSet, hj, ih]

lemma countFor_append_matching (l : List (ℕ × Assessment)) (i : ℕ) (a : Assessment)
    (sid : ℕ) (h : a.sessionId = sid) :
    (List.filter (fun p => p.2.sessionId == sid) (l ++ [(i, a)])).length
      = (List.filter (fun p => p.2.sessionId == sid) l).length + 1 := by
  simp [List.filter_append, h]

/-! ## Concrete database fixtures -/

/-- Fixture candidate document. -/
def fixtureCandidate : Candidate :=
  { email := "jane@example.com", position := "Construction Worker",
    tradeCategory := "general", screeningStatus := "completed",
    lastContactAt := none, flagged := false }

/-- Fixture session document with one finalized candidate response. -/
def fixtureSession : Session :=
  { sessionId := "vapi-1", candidateId := 0, status := "completed", startTime := 0,
    endTime := some 1000, duration := some 1000, vapiSessionId := none,
    recordingUrl := none,
    transcripts := [⟨"t1", "hello", "user", 0, none, true⟩],
    connectionQuality := none, errors := none, hrMonitored := false, hrNotes := none }

/-- Database with the fixture session (id 1) and candidate (id 0), and no
assessments. -/
def fixtureDB : DB :=
  { sessions := [(1, fixtureSession)], candidates := [(0, fixtureCandidate)],
    assessments := [], nextId := 2 }

/-! ## Claim C1: at most one assessment per session -/

/-- C1 counterexample: the basic/MVP scorer performs no existence check
before inserting, so calling evaluate twice for the same session (here via
`calculateBasicScore`) leaves two Assessment records keyed to it, not one. -/
theorem C1_counterexample_duplicate_assessments :
    assessmentCountFor fixtureDB 1 = 0
    ∧ ((calculateBasicScore fixtureDB 5 1 0).toOption.bind (fun r =>
        (calculateBasicScore r.1 6 1 0).toOption)).map (fun r => assessmentCountFor r.1 1)
      = some 2 := by decide

/-! ## Claim C4 counterexample -/

/-- The appended non-final candidate entry. -/
def c4entry : TranscriptEntry := ⟨"t2", "work job task team", "user", 1, none, false⟩

/-- The fixture session with a non-final candidate entry appended. -/
def c4SessionB : Session :=
  { fixtureSession with transcripts := fixtureSession.transcripts ++ [c4entry] }

/-- The fixture database with the appended-entry session. -/
def c4dbB : DB := { fixtureDB with sessions := [(1, c4SessionB)] }

/-- C4 counterexample: the basic/MVP scorer does not filter by the finality
flag — appending one non-final candidate entry changes its overall score
(5 → 25 on the fixture session). -/
theorem C4_counterexample_basicScorer_counts_nonfinal :
    c4SessionB.transcripts = fixtureSession.transcripts ++ [c4entry]
    ∧ c4entry.isFinal = false
    ∧ (calculateBasicScore fixtureDB 5 1 0).toOption.map (fun r => r.2.overallScore) = some 5
    ∧ (calculateBasicScore c4dbB 5 1 0).toOption.map (fun r => r.2.overallScore) = some 25 := by
  decide

/-! ## Claim C2: sessions with no finalized candidate entries -/

/-- Session whose transcript holds one finalized interviewer entry and no
candidate entries. -/
def c2Session : Session :=
  { fixtureSession with
    transcripts := [⟨"a1", "Tell me about your experience", "assistant", 0, none, true⟩] }

/-- Database with the interviewer-only session. -/
def c2db : DB :=
  { sessions := [(1, c2Session)], candidates := [(0, fixtureCandidate)],
    assessments := [], nextId := 2 }

/-- C2: contrary to the claim, `evaluateSessionTranscripts` does not refuse
a session with zero finalized candidate entries: on such a session it
reports success, inserts an Assessment record whose overall score is NaN
(the unguarded `0/0` of the experience score propagated through the blend),
and advances the candidate's screening status to `failed`. -/
theorem C2_emptyUserResponses_still_scored :
    (userResponsesOf c2Session.transcripts).length = 0
    ∧ (evaluateSessionTranscripts c2db 5 1).toOption.map (fun r =>
        (r.2.success, assessmentCountFor r.1 1,
         (assessmentForSession r.1 1).map (fun x => x.overallScore),
         (dbFind r.1.candidates 0).map (fun cand => cand.screeningStatus)))
      = some (true, 1, some none, some "failed") := by decide

/-- C1 (amended): only the transcript-based evaluation paths guard against
duplicates — given a session with a non-empty transcript list that already
has an assessment, `triggerTranscriptAssessment` throws "Assessment already
exists for this session" and `evaluateSessionTranscripts` returns
`success := false` with reason "Assessment exists", leaving the database
unchanged; the basic/MVP scorer, the vendor-webhook path and the manual
creation entry point perform no existence check and insert a new Assessment
record unconditionally, so a second call through any of them leaves two
Assessment records for the session. -/
theorem C1_amended_guard_only_transcript_paths (db : DB) (now now2 : Int) (sid : ℕ)
    (s : Session) (cand : Candidate)
    (hs : dbFind db.sessions sid = some s)
    (hts : s.transcripts.length ≠ 0)
    (hex : (assessmentForSession db sid).isSome = true)
    (hc : dbFind db.candidates s.candidateId = some cand) :
    triggerTranscriptAssessment db now sid
      = .error "Assessment already exists for this session"
    ∧ evaluateSessionTranscripts db now sid
      = .ok (db, { success := false, reason := some "Assessment exists",
                   assessmentId := none, score := none })
    ∧ (calculateBasicScore db now sid s.candidateId).toOption.map
        (fun r => assessmentCountFor r.1 sid) = some (assessmentCountFor db sid + 1)
    ∧ (∀ vs data, (processVapiSession db now2 sid vs data).toOption.map
        (fun r => assessmentCountFor r.1 sid) = some (assessmentCountFor db sid + 1))
    ∧ (∀ cid score passed notes,
        assessmentCountFor (createAssessment db now sid cid score passed notes).1 sid
          = assessmentCountFor db sid + 1) := by
  refine ⟨?_, ?_, ?_, ?_, ?_⟩
  · simp only [triggerTranscriptAssessment, hs, hts, hex, reduceIte]
  · simp only [evaluateSessionTranscripts, hs, hts, hex, reduceIte]
  · simp only [calculateBasicScore, hs, hc, patchCandidate, dbInsertAssessment,
      Except.toOption, assessmentCountFor, Option.map]
    exact congrArg some (countFor_append_matching _ _ _ _ rfl)
  · intro vs data
    simp only [processVapiSession, hs, hc, patchSession, patchCandidate,
      dbInsertAssessment, Except.toOption, assessmentCountFor, Option.map]
    exact congrArg some (countFor_append_matching _ _ _ _ rfl)
  · intro cid score passed notes
    simp only [createAssessment, dbInsertAssessment, assessmentCountFor]
    exact countFor_append_matching _ _ _ _ rfl

/-- A minimal pre-existing assessment record keyed to session 1. -/
def fixtureAssessment : Assessment :=
  { sessionId := 1
    candidateId := 0
    overallScore := some 80
    passed := true
    scores :=
      { technicalSkills :=
          { score := some 80, toolKnowledge := some 80,
            processUnderstanding := some 80, problemSolving := some 80, details := [] }
        safetyKnowledge :=
          { score := some 80, protocolAwareness := some 80,
            hazardRecognition := some 80, emergencyResponse := some 80,
            criticalFailures := [], details := [] }
        experience :=
          { score := some 80, relevantExperience := some 80,
            projectExamples := some 80, troubleshootingAbility := some 80, details := [] }
        communication :=
          { score := some 80, clarity := some 80, professionalism := some 80,
            teamworkIndicators := some 80, details := [] } }
    voiceAnalysis := none
    questionResponses := []
    aiInsights :=
      { strengths := [], weaknesses := [], recommendations := [],
        riskFactors := [], nextSteps := "", overallAssessment := none }
    completedAt := 0 }

/-- The fixture database with an assessment already present for session 1. -/
def c1wdb : DB := { fixtureDB with assessments := [(3, fixtureAssessment)], nextId := 4 }

/-- Witness for C1 (amended) on the fixture database that already holds an
assessment for session 1. -/
theorem C1_amended_guard_witness :
    (dbFind c1wdb.sessions 1 = some fixtureSession
      ∧ fixtureSession.transcripts.length ≠ 0
      ∧ (assessmentForSession c1wdb 1).isSome = true
      ∧ dbFind c1wdb.candidates fixtureSession.candidateId = some fixtureCandidate)
    ∧ (triggerTranscriptAssessment c1wdb 5 1
        = .error "Assessment already exists for this session"
      ∧ evaluateSessionTranscripts c1wdb 5 1
        = .ok (c1wdb, { success := false, reason := some "Assessment exists",
                        assessmentId := none, score := none })
      ∧ (calculateBasicScore c1wdb 5 1 fixtureSession.candidateId).toOption.map
          (fun r => assessmentCountFor r.1 1) = some (assessmentCountFor c1wdb 1 + 1)
      ∧ (∀ vs data, (processVapiSession c1wdb 6 1 vs data).toOption.map
          (fun r => assessmentCountFor r.1 1) = some (assessmentCountFor c1wdb 1 + 1))
      ∧ (∀ cid score passed notes,
          assessmentCountFor (createAssessment c1wdb 5 1 cid score passed notes).1 1
            = assessmentCountFor c1wdb 1 + 1)) :=
  ⟨⟨by decide, by decide, by decide, by decide⟩,
    C1_amended_guard_only_transcript_paths c1wdb 5 6 1 fixtureSession fixtureCandidate
      (by decide) (by decide) (by decide) (by decide)⟩

/-! ## Claims C8 and C9: session lifecycle -/

/-- The successful run of `failSession`, with the resulting state explicit. -/
lemma failSession_ok (db : DB) (now : Int) (sid : ℕ) (reason : String)
    (ed : Option FailErrorDetails) (s : Session) (cand : Candidate)
    (hs : dbFind db.sessions sid = some s)
    (hc : dbFind db.candidates s.candidateId = some cand) :
    failSession db now sid reason ed
      = .ok ({ db with
          sessions := listSet db.sessions sid
            { s with
              status := reason, endTime := some now,
              duration := some (now - s.startTime),
              errors := (match ed with
                | some d => some ((s.errors.getD []) ++ [⟨d.code, d.message, now⟩])
                | none => s.errors) },
          candidates := listSet db.candidates s.candidateId
            { cand with
              screeningStatus := if reason == "abandoned" then "invited" else "pending_review",
              lastContactAt := some now } }, true) := by
  simp only [failSession, hs, patchCandidate, hc]

/-- The successful run of `completeSession`, with the resulting state
explicit. -/
lemma completeSession_ok (db : DB) (now : Int) (sid : ℕ) (rec : Option String)
    (fin : Option (List TranscriptEntry)) (s : Session) (cand : Candidate)
    (hs : dbFind db.sessions sid = some s)
    (hc : dbFind db.candidates s.candidateId = some cand) :
    completeSession db now sid rec fin
      = .ok ({ db with
          sessions := listSet db.sessions sid
            { s with
              status := "completed", endTime := some now,
              duration := some (now - s.startTime),
              recordingUrl := jsOrStr rec s.recordingUrl,
              transcripts := fin.getD s.transcripts },
          candidates := listSet db.candidates s.candidateId
            { cand with screeningStatus := "completed", lastContactAt := some now } },
        now - s.startTime) := by
  simp only [completeSession, hs, patchCandidate, hc]

/-- C8: terminating a session abnormally maps the candidate differently
from a scored completion — `abandoned` sends the candidate back to
`invited`, `failed` sends them to `pending_review` — and `failSession`
neither computes nor creates any assessment (the assessments table is left
untouched). -/
theorem C8_failSession_status_mapping (db : DB) (now : Int) (sid : ℕ) (s : Session)
    (cand : Candidate) (ed : Option FailErrorDetails)
    (hs : dbFind db.sessions sid = some s)
    (hc : dbFind db.candidates s.candidateId = some cand) :
    ∃ db1 db2 : DB,
      failSession db now sid "abandoned" ed = .ok (db1, true)
      ∧ failSession db now sid "failed" ed = .ok (db2, true)
      ∧ (dbFind db1.candidates s.candidateId).map (fun x => x.screeningStatus)
          = some "invited"
      ∧ (dbFind db2.candidates s.candidateId).map (fun x => x.screeningStatus)
          = some "pending_review"
      ∧ (dbFind db1.sessions sid).map (fun x => x.status) = some "abandoned"
      ∧ (dbFind db2.sessions sid).map (fun x => x.status) = some "failed"
      ∧ db1.assessments = db.assessments ∧ db2.assessments = db.assessments := by
  refine ⟨_, _, failSession_ok db now sid "abandoned" ed s cand hs hc,
    failSession_ok db now sid "failed" ed s cand hs hc, ?_, ?_, ?_, ?_, rfl, rfl⟩
  · rw [show ({ db with
        sessions := listSet db.sessions sid
          { s with
            status := "abandoned", endTime := some now,
            duration := some (now - s.startTime),
            errors := (match ed with
              | some d => some ((s.errors.getD []) ++ [⟨d.code, d.message, now⟩])
              | none => s.errors) },
        candidates := listSet db.candidates s.candidateId
          { cand with
            screeningStatus := if "abandoned" == "abandoned" then "invited"
              else "pending_review",
            lastContactAt := some now } } : DB).candidates
      = listSet db.candidates s.candidateId
          { cand with
            screeningStatus := if "abandoned" == "abandoned" then "invited"
              else "pending_review",
            lastContactAt := some now } from rfl]
    rw [dbFind_listSet_self _ _ _ cand hc]
    simp
  · rw [show ({ db with
        sessions := listSet db.sessions sid
          { s with
            status := "failed", endTime := some now,
            duration := some (now - s.startTime),
            errors := (match ed with
              | some d => some ((s.errors.getD []) ++ [⟨d.code, d.message, now⟩])
              | none => s.errors) },
        candidates := listSet db.candidates s.candidateId
          { cand with
            screeningStatus := if "failed" == "abandoned" then "invited"
              else "pending_review",
            lastContactAt := some now } } : DB).candidates
      = listSet db.candidates s.candidateId
          { cand with
            screeningStatus := if "failed" == "abandoned" then "invited"
              else "pending_review",
            lastContactAt := some now } from rfl]
    rw [dbFind_listSet_self _ _ _ cand hc]
    simp
  · rw [dbFind_listSet_self _ _ _ s hs]
    simp
  · rw [dbFind_listSet_self _ _ _ s hs]
    simp

/-- Witness for C8 on the fixture database. -/
theorem C8_failSession_status_mapping_witness :
    (dbFind fixtureDB.sessions 1 = some fixtureSession
      ∧ dbFind fixtureDB.candidates fixtureSession.candidateId = some fixtureCandidate)
    ∧ (∃ db1 db2 : DB,
        failSession fixtureDB 7 1 "abandoned" none = .ok (db1, true)
        ∧ failSession fixtureDB 7 1 "failed" none = .ok (db2, true)
        ∧ (dbFind db1.candidates fixtureSession.candidateId).map (fun x => x.screeningStatus)
            = some "invited"
        ∧ (dbFind db2.candidates fixtureSession.candidateId).map (fun x => x.screeningStatus)
            = some "pending_review"
        ∧ (dbFind db1.sessions 1).map (fun x => x.status) = some "abandoned"
        ∧ (dbFind db2.sessions 1).map (fun x => x.status) = some "failed"
        ∧ db1.assessments = fixtureDB.assessments
        ∧ db2.assessments = fixtureDB.assessments) :=
  ⟨⟨by decide, by decide⟩,
    C8_failSession_status_mapping fixtureDB 7 1 fixtureSession fixtureCandidate none
      (by decide) (by decide)⟩

/-- The session written by a successful `processVapiSession` run: status
`completed`, end time stamped — but the duration field left untouched. -/
lemma processVapiSession_session_shape (db : DB) (now : Int) (sid : ℕ) (vs : String)
    (data : VapiCallData) (s : Session) (cand : Candidate)
    (hs : dbFind db.sessions sid = some s)
    (hc : dbFind db.candidates s.candidateId = some cand) :
    ∃ db3 r, processVapiSession db now sid vs data = .ok (db3, r)
      ∧ (dbFind db3.sessions sid).map (fun x => (x.status, x.endTime, x.duration))
          = some ("completed", some now, s.duration) := by
  simp only [processVapiSession, hs, patchSession, patchCandidate, dbInsertAssessment, hc]
  refine ⟨_, _, rfl, ?_⟩
  rw [dbFind_listSet_self _ _ _ s hs]
  simp

/-- C9 (amended): `completeSession` and `failSession` preserve the session
timing invariant — they set the end time and the duration together and
write a terminal status only alongside the end time; the vendor-webhook
path (`processVapiSession`) sets status `completed` and the end time but
leaves `duration` untouched, so it preserves only the
terminal-status-implies-end-time half and breaks the duration-iff-end-time
half whenever the duration was previously unset (see the counterexample). -/
theorem C9_amended_timing_invariant (db : DB) (now : Int) (sid : ℕ) (s : Session)
    (cand : Candidate) (rec : Option String) (fin : Option (List TranscriptEntry))
    (reason : String) (ed : Option FailErrorDetails) (vs : String) (data : VapiCallData)
    (hs : dbFind db.sessions sid = some s)
    (hc : dbFind db.candidates s.candidateId = some cand) :
    (∃ db1 d, completeSession db now sid rec fin = .ok (db1, d)
      ∧ (dbFind db1.sessions sid).map (fun x => (sessionTimingInvB x, x.status))
          = some (true, "completed"))
    ∧ (∃ db2, failSession db now sid reason ed = .ok (db2, true)
      ∧ (dbFind db2.sessions sid).map sessionTimingInvB = some true)
    ∧ (∃ db3 r, processVapiSession db now sid vs data = .ok (db3, r)
      ∧ (dbFind db3.sessions sid).map (fun x => (x.status, x.endTime, x.duration))
          = some ("completed", some now, s.duration)) := by
  refine ⟨⟨_, _, completeSession_ok db now sid rec fin s cand hs hc, ?_⟩,
    ⟨_, failSession_ok db now sid reason ed s cand hs hc, ?_⟩,
    processVapiSession_session_shape db now sid vs data s cand hs hc⟩
  · rw [dbFind_listSet_self _ _ _ s hs]
    simp [sessionTimingInvB]
  · rw [dbFind_listSet_self _ _ _ s hs]
    simp [sessionTimingInvB]

/-- Witness for C9 (amended) on the fixture database. -/
theorem C9_amended_timing_invariant_witness :
    (dbFind fixtureDB.sessions 1 = some fixtureSession
      ∧ dbFind fixtureDB.candidates fixtureSession.candidateId = some fixtureCandidate)
    ∧ ((∃ db1 d, completeSession fixtureDB 9 1 none none = .ok (db1, d)
        ∧ (dbFind db1.sessions 1).map (fun x => (sessionTimingInvB x, x.status))
            = some (true, "completed"))
      ∧ (∃ db2, failSession fixtureDB 9 1 "abandoned" none = .ok (db2, true)
        ∧ (dbFind db2.sessions 1).map sessionTimingInvB = some true)
      ∧ (∃ db3 r, processVapiSession fixtureDB 9 1 "v" ⟨none, none, none⟩ = .ok (db3, r)
        ∧ (dbFind db3.sessions 1).map (fun x => (x.status, x.endTime, x.duration))
            = some ("completed", some 9, fixtureSession.duration))) :=
  ⟨⟨by decide, by decide⟩,
    C9_amended_timing_invariant fixtureDB 9 1 fixtureSession fixtureCandidate none none
      "abandoned" none "v" ⟨none, none, none⟩ (by decide) (by decide)⟩

/-- Session that has not ended: no end time, no duration. -/
def c9Session : Session :=
  { fixtureSession with status := "active", endTime := none, duration := none }

/-- Database holding the still-active session. -/
def c9db : DB :=
  { sessions := [(1, c9Session)], candidates := [(0, fixtureCandidate)],
    assessments := [], nextId := 2 }

/-- C9 counterexample: on a session whose timing invariant holds (no end
time, no duration, status `active`), `processVapiSession` writes status
`completed` and an end time without writing a duration, so the resulting
session violates the "duration is defined iff the end time is set"
invariant. -/
theorem C9_counterexample_processVapi_breaks_invariant :
    ((dbFind c9db.sessions 1).map sessionTimingInvB = some true)
    ∧ (processVapiSession c9db 5 1 "v" ⟨none, none, none⟩).toOption.map (fun r =>
        (dbFind r.1.sessions 1).map (fun x =>
          (sessionTimingInvB x, x.status, x.endTime, x.duration)))
      = some (some (false, "completed", some 5, none)) := by decide

/-! ## Claim C10: the frame of `updateAssessment` -/

/-- C10: `updateAssessment` modifies at most `overallScore`, `passed`, and
the `nextSteps` entry inside `aiInsights` (all other insight entries and
all other fields are copied unchanged, and all other assessments are left
alone); when the referenced assessment does not exist it throws
"Assessment not found" and — the transaction carrying no state on a throw —
changes nothing. -/
theorem C10_updateAssessment_frame (db : DB) (aid : ℕ) (os : Option ℚ)
    (pa : Option Bool) (na : Option String) :
    (dbFind db.assessments aid = none →
      updateAssessment db aid os pa na = .error "Assessment not found")
    ∧ (∀ a : Assessment, dbFind db.assessments aid = some a →
      ∃ a' : Assessment,
        updateAssessment db aid os pa na
          = .ok ({ db with assessments := listSet db.assessments aid a' }, true)
        ∧ a'.sessionId = a.sessionId ∧ a'.candidateId = a.candidateId
        ∧ a'.scores = a.scores ∧ a'.questionResponses = a.questionResponses
        ∧ a'.voiceAnalysis = a.voiceAnalysis ∧ a'.completedAt = a.completedAt
        ∧ a'.aiInsights.strengths = a.aiInsights.strengths
        ∧ a'.aiInsights.weaknesses = a.aiInsights.weaknesses
        ∧ a'.aiInsights.recommendations = a.aiInsights.recommendations
        ∧ a'.aiInsights.riskFactors = a.aiInsights.riskFactors
        ∧ (os = none → a'.overallScore = a.overallScore)
        ∧ (pa = none → a'.passed = a.passed)
        ∧ ((na = none ∨ na = some "") → a'.aiInsights.nextSteps = a.aiInsights.nextSteps)
        ∧ (∀ j, j ≠ aid →
            dbFind (listSet db.assessments aid a') j = dbFind db.assessments j)) := by
  constructor
  · intro hnone
    simp only [updateAssessment, hnone]
  · intro a ha
    simp only [updateAssessment, ha]
    rcases na with _ | n
    · rcases os with _ | s <;> rcases pa with _ | p <;>
        (refine ⟨_, rfl, ?_⟩
         simp only [true_and, and_true, forall_const, reduceCtorEq, false_implies,
           true_implies, or_self, ne_eq, and_self, eq_self_iff_true]
         try simp
         exact fun j hj => dbFind_listSet_ne _ _ _ _ hj)
    · rcases os with _ | s <;> rcases pa with _ | p <;>
        (refine ⟨_, rfl, ?_⟩
         by_cases hn : n = "" <;>
           (simp [hn]
            exact fun j hj => dbFind_listSet_ne _ _ _ _ hj))

/-- Witness for C10 on the fixture database with one assessment (id 3): an
update of score and notes, and a missing-id update. -/
theorem C10_updateAssessment_frame_witness :
    (dbFind c1wdb.assessments 9 = none
      ∧ dbFind c1wdb.assessments 3 = some fixtureAssessment)
    ∧ updateAssessment c1wdb 9 (some 90) none (some "redo") = .error "Assessment not found"
    ∧ (∃ a' : Assessment,
        updateAssessment c1wdb 3 (some 90) none (some "redo")
          = .ok ({ c1wdb with assessments := listSet c1wdb.assessments 3 a' }, true)
        ∧ a'.sessionId = fixtureAssessment.sessionId
        ∧ a'.candidateId = fixtureAssessment.candidateId
        ∧ a'.scores = fixtureAssessment.scores
        ∧ a'.questionResponses = fixtureAssessment.questionResponses
        ∧ a'.voiceAnalysis = fixtureAssessment.voiceAnalysis
        ∧ a'.completedAt = fixtureAssessment.completedAt
        ∧ a'.aiInsights.strengths = fixtureAssessment.aiInsights.strengths
        ∧ a'.aiInsights.weaknesses = fixtureAssessment.aiInsights.weaknesses
        ∧ a'.aiInsights.recommendations = fixtureAssessment.aiInsights.recommendations
        ∧ a'.aiInsights.riskFactors = fixtureAssessment.aiInsights.riskFactors
        ∧ (some (90:ℚ) = none → a'.overallScore = fixtureAssessment.overallScore)
        ∧ ((none : Option Bool) = none → a'.passed = fixtureAssessment.passed)
        ∧ ((some "redo" = none ∨ some "redo" = some "") →
            a'.aiInsights.nextSteps = fixtureAssessment.aiInsights.nextSteps)
        ∧ (∀ j, j ≠ 3 →
            dbFind (listSet c1wdb.assessments 3 a') j = dbFind c1wdb.assessments j)) :=
  ⟨⟨by decide, by decide⟩,
    (C10_updateAssessment_frame c1wdb 9 (some 90) none (some "redo")).1 (by decide),
    (C10_updateAssessment_frame c1wdb 3 (some 90) none (some "redo")).2
      fixtureAssessment (by decide)⟩

end Spec2Proof
